import Mathlib

set_option linter.unusedVariables false

namespace BookedSolid

/-!
Shallow embedding of the BookedSolid voice-agent server: the session bridge's
tool-call dispatch (apps/server/src/index.ts), the booking operation layer
(services/booking), the availability resolver (services/booking/slotFinder.ts)
and the calendar gateway's rate-limit retry (services/calendar/GoogleCalendarAdapter.ts).
Times on the availability resolver's timeline are minutes in the resolved local
timezone; timestamps on the dispatch path are milliseconds as in `Date.now()`.
-/

/-- Lookup in a JS `Map` keyed by strings (insertion order preserved). -/
def mapGet {α : Type} : List (String × α) → String → Option α
  | [], _ => none
  | (k', v) :: rest, k => if k' = k then some v else mapGet rest k

/-- JS `Map.set`: replace in place when the key exists, append otherwise. -/
def mapSet {α : Type} : List (String × α) → String → α → List (String × α)
  | [], k, v => [(k, v)]
  | (k', v') :: rest, k, v =>
    if k' = k then (k, v) :: rest else (k', v') :: mapSet rest k v

/-- JS `Map.delete` (keys are unique in a `Map`, so dropping the first hit suffices). -/
def mapDelete {α : Type} : List (String × α) → String → List (String × α)
  | [], _ => []
  | (k', v') :: rest, k => if k' = k then rest else (k', v') :: mapDelete rest k

/-- JS `Set.has` over string elements. -/
def setHas : List String → String → Bool
  | [], _ => false
  | x :: rest, k => if x = k then true else setHas rest k

/-- JS `Set.add`: append when absent. -/
def setAdd (s : List String) (k : String) : List String :=
  if setHas s k then s else s ++ [k]

/-- JS `Set.delete`. -/
def setDelete : List String → String → List String
  | [], _ => []
  | x :: rest, k => if x = k then setDelete rest k else x :: setDelete rest k

/-- Whether the character list `p` is a prefix of `cs`. -/
def charsPrefix : List Char → List Char → Bool
  | [], _ => true
  | _ :: _, [] => false
  | p :: ps, c :: cs => p == c && charsPrefix ps cs

/-- Whether `needle` occurs as a contiguous run inside the second list. -/
def charsContain (needle : List Char) : List Char → Bool
  | [] => charsPrefix needle []
  | c :: cs => charsPrefix needle (c :: cs) || charsContain needle cs

/-- JS `String.prototype.includes(needle)`. -/
def stringIncludes (haystack needle : String) : Bool :=
  charsContain needle.data haystack.data

/-! ## Coaching score (apps/server/src/index.ts, computeScore / mapScoreToLevel) -/

/-- The per-call coaching counters kept by the session bridge. -/
structure CoachMetrics where
  simplifications : Nat
  repeats : Nat
  spanishAnswers : Nat
  spanishWithoutEnglish : Nat
deriving DecidableEq

/-- index.ts `computeScore`: +20 for a Spanish-only answer, +20 for two Spanish
answers, -10 per simplification, clamped to [0, 100]. -/
def computeScore (metrics : CoachMetrics) : Int :=
  let score : Int :=
    (if 1 ≤ metrics.spanishWithoutEnglish then 20 else 0) +
      (if 2 ≤ metrics.spanishAnswers then 20 else 0) -
      (metrics.simplifications : Int) * 10
  max 0 (min 100 score)

/-- index.ts `mapScoreToLevel`. -/
def mapScoreToLevel (score : Int) : String :=
  if score ≤ 25 then "A0"
  else if score ≤ 50 then "A1"
  else if score ≤ 75 then "A2"
  else "B1"

/-! ## Calendar gateway rate-limit retry (GoogleCalendarAdapter.ts) -/

/-- An error thrown by the Google client: either an HTTP error response carrying
a status and per-item reason codes, or some other thrown value. -/
inductive CalError where
  | apiError (status : Option Nat) (reasons : List (Option String))
  | jsError (message : String)
deriving DecidableEq

/-- GoogleCalendarAdapter.ts `isRateLimitError`: HTTP 429, or HTTP 403 whose
error items carry a rate-limit reason code. -/
def isRateLimitError : CalError → Bool
  | .jsError _ => false
  | .apiError status reasons =>
    if status != some 403 && status != some 429 then false
    else
      status == some 429 ||
        reasons.any (fun reason =>
          ["rateLimitExceeded", "userRateLimitExceeded"].contains (reason.getD ""))

/-- GoogleCalendarAdapter.ts `RATE_LIMIT_RETRY_DELAYS_MS`. -/
def RATE_LIMIT_RETRY_DELAYS_MS : List Nat := [500, 1500, 3000]

/-- The body of `withCalendarRetry`'s `for` loop. `fn i` is the outcome of the
i-th attempt; the returned list records the backoff delays actually slept.
The fuel counts the remaining loop iterations (`attempt <= delays.length`),
and the fuel-0 fallthrough is the unreachable final `throw` of the source. -/
def withCalendarRetryGo {T : Type} (fn : Nat → Except CalError T) :
    Nat → Nat → List Nat → Except CalError T × List Nat
  | 0, _, slept => (.error (.jsError "Calendar operation failed after retries"), slept)
  | fuel + 1, attempt, slept =>
    match fn attempt with
    | .ok v => (.ok v, slept)
    | .error e =>
      if !isRateLimitError e || attempt == RATE_LIMIT_RETRY_DELAYS_MS.length then
        (.error e, slept)
      else
        withCalendarRetryGo fn fuel (attempt + 1)
          (slept ++ [(RATE_LIMIT_RETRY_DELAYS_MS.get? attempt).getD 0])

/-- GoogleCalendarAdapter.ts `withCalendarRetry`: retry a calendar operation on
rate-limit errors only, with the fixed backoff schedule. -/
def withCalendarRetry {T : Type} (fn : Nat → Except CalError T) :
    Except CalError T × List Nat :=
  withCalendarRetryGo fn (RATE_LIMIT_RETRY_DELAYS_MS.length + 1) 0 []

/-! ## Booking operation layer (services/booking, bookingParser.ts) -/

/-- An error thrown by the calendar adapter and caught by the booking layer;
only the message text matters to the classifier. -/
inductive AdapterError where
  | thrown (message : String)
deriving DecidableEq

/-- bookingParser.ts `BookingToolError` (code is `booking_not_configured` or
`booking_error`). -/
structure BookingToolError where
  code : String
  message : String
deriving DecidableEq

/-- bookingParser.ts `isBookingConfigError`: fixed substring matching on the
thrown error's message. -/
def isBookingConfigError : AdapterError → Bool
  | .thrown message =>
    stringIncludes message "invalid_grant" || stringIncludes message "invalid_client" ||
      stringIncludes message "missing"

/-- The booking-layer configuration drawn from the environment:
`BOOKING_DRY_RUN` and `DEFAULT_TIMEZONE`. -/
structure BookingConfig where
  dryRun : Bool
  defaultTimezone : Option String
deriving DecidableEq

/-- bookingParser.ts `resolveTimezone`. -/
def resolveTimezone (cfg : BookingConfig) (inputTimezone : Option String) : String :=
  inputTimezone.getD (cfg.defaultTimezone.getD "America/Phoenix")

/-- The value resolved from the Google insert/patch response:
`{eventId?, htmlLink?}`. -/
structure CreateEventRes where
  eventId : Option String
  htmlLink : Option String
deriving DecidableEq

/-- bookingParser.ts `BookingCreateAppointmentInput`. The ISO strings are kept
verbatim; the `new Date(...).toISOString()` round-trip is modelled as the
identity on already-normalized inputs. -/
structure BookingCreateAppointmentInput where
  startISO : String
  endISO : String
  name : String
  reason : String
  phone : Option String
  timezone : Option String
  idempotencySource : Option String
  toolCallId : Option String
deriving DecidableEq

/-- bookingParser.ts `BookingCreateAppointmentOutput`. -/
structure BookingCreateAppointmentOutput where
  dryRun : Bool
  created : Bool
  eventId : Option String
  htmlLink : Option String
  summary : Option String
  startISO : String
  endISO : String
  timezone : String
deriving DecidableEq

/-- A remote calendar operation issued through the calendar adapter. -/
inductive RemoteOp where
  | createEvent (startISO endISO : String)
  | updateEvent (eventId : String)
  | cancelEvent (eventId : String)
  | readCalendar
deriving DecidableEq

/-- bookingParser.ts `createAppointment` (the variant with the defensive
event-id check, lines 405-484): on the dry-run flag return a `created: false`
result without touching the adapter; otherwise issue the remote create
(`adapterCreate` is the oracle for what `adapter.createEvent` returns or
throws), treat a missing/empty returned event id as a `booking_error`, and
classify thrown errors by `isBookingConfigError`. Also returns the list of
remote operations issued. -/
def createAppointment (cfg : BookingConfig) (input : BookingCreateAppointmentInput)
    (adapterCreate : Except AdapterError (Option CreateEventRes)) :
    Except BookingToolError BookingCreateAppointmentOutput × List RemoteOp :=
  let timezoneName := resolveTimezone cfg input.timezone
  let summary := "Caller requested: " ++ input.reason ++ "."
  if cfg.dryRun then
    (.ok ⟨true, false, none, none, some summary, input.startISO, input.endISO, timezoneName⟩, [])
  else
    match adapterCreate with
    | .ok result =>
      let eventIdVal := result.bind (fun r => r.eventId)
      let created := match eventIdVal with
        | some id => id != ""
        | none => false
      if created then
        (.ok ⟨false, created, eventIdVal, result.bind (fun r => r.htmlLink), some summary,
          input.startISO, input.endISO, timezoneName⟩,
          [.createEvent input.startISO input.endISO])
      else
        (.error ⟨"booking_error", "Unable to confirm appointment booking."⟩,
          [.createEvent input.startISO input.endISO])
    | .error err =>
      if isBookingConfigError err then
        (.error ⟨"booking_not_configured", "Google Calendar authentication failed."⟩,
          [.createEvent input.startISO input.endISO])
      else
        (.error ⟨"booking_error", "Unable to create appointment."⟩,
          [.createEvent input.startISO input.endISO])

/-- bookingParser.ts `BookingCheckAvailabilityOutput` (slots as ISO pairs). -/
structure BookingCheckAvailabilityOutput where
  slots : List (String × String)
  timezone : String
  notes : Option String
deriving DecidableEq

/-- bookingParser.ts `BookingFindAppointmentOutput`, reduced to the matched
event ids; the bridge inspects only whether any match exists. -/
structure BookingFindAppointmentOutput where
  «matches» : List String
  timezone : String
deriving DecidableEq

/-- bookingParser.ts `BookingUpdateAppointmentOutput`. -/
structure BookingUpdateAppointmentOutput where
  updated : Bool
  eventId : String
  htmlLink : Option String
  startISO : String
  endISO : String
  timezone : String
deriving DecidableEq

/-- bookingParser.ts `BookingCancelAppointmentOutput`. -/
structure BookingCancelAppointmentOutput where
  cancelled : Bool
  eventId : String
deriving DecidableEq

/-- bookingParser.ts `checkAvailability`, with the window resolution, busy
query and slot search abstracted into the adapter oracle (the slot search
itself is verified separately as `findAvailableSlots`); thrown adapter errors
are classified exactly as in the source. -/
def checkAvailabilityTool (outcome : Except AdapterError BookingCheckAvailabilityOutput) :
    Except BookingToolError BookingCheckAvailabilityOutput × List RemoteOp :=
  match outcome with
  | .ok result => (.ok result, [.readCalendar])
  | .error err =>
    if isBookingConfigError err then
      (.error ⟨"booking_not_configured", "Google Calendar authentication failed."⟩, [.readCalendar])
    else
      (.error ⟨"booking_error", "Unable to check availability."⟩, [.readCalendar])

/-- bookingParser.ts `findAppointment`, with `listEvents` plus the start-time
and name filters abstracted into the oracle's list of matched event ids. -/
def findAppointmentTool (cfg : BookingConfig) (timezone : Option String)
    (outcome : Except AdapterError (List String)) :
    Except BookingToolError BookingFindAppointmentOutput × List RemoteOp :=
  let timezoneName := resolveTimezone cfg timezone
  match outcome with
  | .ok found => (.ok ⟨found, timezoneName⟩, [.readCalendar])
  | .error err =>
    if isBookingConfigError err then
      (.error ⟨"booking_not_configured", "Google Calendar authentication failed."⟩, [.readCalendar])
    else
      (.error ⟨"booking_error", "Unable to find appointments."⟩, [.readCalendar])

/-- bookingParser.ts `updateAppointment`: on adapter success the output always
reports `updated: true`. -/
def updateAppointmentTool (cfg : BookingConfig) (eventId startISO endISO : String)
    (timezone : Option String) (outcome : Except AdapterError CreateEventRes) :
    Except BookingToolError BookingUpdateAppointmentOutput × List RemoteOp :=
  let timezoneName := resolveTimezone cfg timezone
  match outcome with
  | .ok result =>
    (.ok ⟨true, result.eventId.getD eventId, result.htmlLink, startISO, endISO, timezoneName⟩,
      [.updateEvent eventId])
  | .error err =>
    if isBookingConfigError err then
      (.error ⟨"booking_not_configured", "Google Calendar authentication failed."⟩,
        [.updateEvent eventId])
    else
      (.error ⟨"booking_error", "Unable to update appointment."⟩, [.updateEvent eventId])

/-- bookingParser.ts `cancelAppointment`: on adapter success the output always
reports `cancelled: true`. -/
def cancelAppointmentTool (eventId : String) (outcome : Except AdapterError Unit) :
    Except BookingToolError BookingCancelAppointmentOutput × List RemoteOp :=
  match outcome with
  | .ok _ => (.ok ⟨true, eventId⟩, [.cancelEvent eventId])
  | .error err =>
    if isBookingConfigError err then
      (.error ⟨"booking_not_configured", "Google Calendar authentication failed."⟩,
        [.cancelEvent eventId])
    else
      (.error ⟨"booking_error", "Unable to cancel appointment."⟩, [.cancelEvent eventId])

/-! ## Availability resolver (services/booking/slotFinder.ts)

Instants are minutes on the resolved local timezone's timeline, so that
calendar-day arithmetic (`startOf day`, `hour h`) is `fdiv`/multiplication by
1440; the source works in milliseconds, which rescales every comparison
uniformly. -/

/-- slotFinder.ts `BusyInterval` (`{start, end}`); the `end` field keeps its
source name via guillemets. -/
structure BusyInterval where
  start : Int
  «end» : Int
deriving DecidableEq

/-- slotFinder.ts `TimePreference`. -/
inductive TimePreference where
  | morning
  | afternoon
  | specific (hour minute : Int)
  | any
deriving DecidableEq

/-- slotFinder.ts `SlotFinderInput` (the timezone string is absorbed into the
choice of local timeline). -/
structure SlotFinderInput where
  busyIntervals : List BusyInterval
  windowStart : Int
  windowEnd : Int
  durationMinutes : Int
  bufferMinutes : Int
  timePreference : TimePreference
  businessStartHour : Option Int
  businessEndHour : Option Int
deriving DecidableEq

/-- A busy interval already expanded by the buffer on both sides. -/
structure ExpandedInterval where
  start : Int
  «end» : Int
deriving DecidableEq

/-- slotFinder.ts `isSlotBusy`: the candidate overlaps some buffer-expanded
busy interval. -/
def isSlotBusy (start durationMin : Int) (expandedBusy : List ExpandedInterval) : Bool :=
  expandedBusy.any fun interval =>
    decide (start < interval.«end») && decide (interval.start < start + durationMin)

/-- The clipped business window for one calendar day, or `none` when the
source's `continue` skips the day: business hours, narrowed for a
morning/afternoon preference, clipped to the overall window on its boundary
days, and dropped when shorter than the requested duration. -/
def processDay (input : SlotFinderInput) (day : Int) : Option (Int × Int) :=
  let businessStartHour := input.businessStartHour.getD 9
  let businessEndHour := input.businessEndHour.getD 17
  let dayStart0 := day * 1440 + businessStartHour * 60
  let dayEnd0 := day * 1440 + businessEndHour * 60
  let dayEnd1 := if input.timePreference = .morning then day * 1440 + 12 * 60 else dayEnd0
  let dayStart1 := if input.timePreference = .afternoon then day * 1440 + 12 * 60 else dayStart0
  let dayStart2 :=
    if dayStart1 < input.windowStart ∧ input.windowStart.fdiv 1440 = day then input.windowStart
    else dayStart1
  let dayEnd2 :=
    if input.windowEnd < dayEnd1 ∧ input.windowEnd.fdiv 1440 = day then input.windowEnd
    else dayEnd1
  if dayEnd2 - dayStart2 < input.durationMinutes then none
  else some (dayStart2, dayEnd2)

/-- The candidate starts visited by the source's inner `for` loop: from the
clipped day start in 15-minute steps while `cursor + duration <= dayEnd`
(`dayStart + 15*i + d <= dayEnd` iff `i <= (dayEnd - d - dayStart).fdiv 15`). -/
def dayCursors (dayStart dayEnd durationMin : Int) : List Int :=
  (List.range (((dayEnd - durationMin - dayStart).fdiv 15) + 1).toNat).map
    (fun i => dayStart + 15 * i)

/-- The inner scan: test each candidate against the expanded busy list, push
free ones, and report `true` when the two-slot cap is reached (the source's
`return slots`). -/
def scanCursors (durationMin : Int) (expandedBusy : List ExpandedInterval) :
    List Int → List Int → List Int × Bool
  | slots, [] => (slots, false)
  | slots, cursor :: rest =>
    if isSlotBusy cursor durationMin expandedBusy then
      scanCursors durationMin expandedBusy slots rest
    else
      let slots' := slots ++ [cursor]
      if 2 ≤ slots'.length then (slots', true)
      else scanCursors durationMin expandedBusy slots' rest

/-- The outer day loop of `findAvailableSlots`; `n` counts the remaining days
(`startDay` through `endDay` inclusive). A `specific` preference tests the
single candidate of the first non-skipped day and returns at once. -/
def findLoop (input : SlotFinderInput) (expandedBusy : List ExpandedInterval) :
    Nat → Int → List Int → List Int
  | 0, _, slots => slots
  | n + 1, day, slots =>
    match processDay input day with
    | none => findLoop input expandedBusy n (day + 1) slots
    | some (dayStart, dayEnd) =>
      match input.timePreference with
      | .specific hour minute =>
        let specificStart := day * 1440 + hour * 60 + minute
        if specificStart < dayStart ∨ dayEnd < specificStart + input.durationMinutes then
          findLoop input expandedBusy n (day + 1) slots
        else if isSlotBusy specificStart input.durationMinutes expandedBusy then slots
        else slots ++ [specificStart]
      | _ =>
        let scanned := scanCursors input.durationMinutes expandedBusy slots
          (dayCursors dayStart dayEnd input.durationMinutes)
        if scanned.2 then scanned.1
        else findLoop input expandedBusy n (day + 1) scanned.1

/-- The busy intervals expanded by the buffer on both sides (the `expandedBusy`
binding at the top of `findAvailableSlots`). -/
def expandBusy (input : SlotFinderInput) : List ExpandedInterval :=
  input.busyIntervals.map fun interval =>
    ExpandedInterval.mk (interval.start - input.bufferMinutes)
      (interval.«end» + input.bufferMinutes)

/-- slotFinder.ts `findAvailableSlots`: expand busy intervals by the buffer,
then walk each calendar day of the window collecting free candidate starts,
capped at two. -/
def findAvailableSlots (input : SlotFinderInput) : List Int :=
  let startDay := input.windowStart.fdiv 1440
  let endDay := input.windowEnd.fdiv 1440
  findLoop input (expandBusy input) (endDay - startDay + 1).toNat startDay []

/-- Spec-side reference: all free candidate starts of one day's cursor list,
with no cap. -/
def scanCursorsAll (durationMin : Int) (expandedBusy : List ExpandedInterval) :
    List Int → List Int
  | [] => []
  | cursor :: rest =>
    if isSlotBusy cursor durationMin expandedBusy then
      scanCursorsAll durationMin expandedBusy rest
    else cursor :: scanCursorsAll durationMin expandedBusy rest

/-- Spec-side reference: every free candidate start across the window's days,
with no early stop (for inputs without an exact-time preference). -/
def findLoopAll (input : SlotFinderInput) (expandedBusy : List ExpandedInterval) :
    Nat → Int → List Int
  | 0, _ => []
  | n + 1, day =>
    match processDay input day with
    | none => findLoopAll input expandedBusy n (day + 1)
    | some (dayStart, dayEnd) =>
      scanCursorsAll input.durationMinutes expandedBusy
          (dayCursors dayStart dayEnd input.durationMinutes) ++
        findLoopAll input expandedBusy n (day + 1)

/-- Spec-side reference: the uncapped list of free slots (the claim's
"stopping as soon as 2 slots are found" says the resolver returns the first
two of these). -/
def findAvailableSlotsNoCap (input : SlotFinderInput) : List Int :=
  let startDay := input.windowStart.fdiv 1440
  let endDay := input.windowEnd.fdiv 1440
  findLoopAll input (expandBusy input) (endDay - startDay + 1).toNat startDay

/-- The spec's §8 scenario on the minute timeline of one day: window
9:00-17:00 (540-1020), duration 30, buffer 10, one busy interval 10:00-10:30
(600-630), no time preference, default business hours. -/
def slotScenarioInput : SlotFinderInput :=
  ⟨[⟨600, 630⟩], 540, 1020, 30, 10, .any, none, none⟩

deriving instance DecidableEq for Except

/-! ## Session bridge (apps/server/src/index.ts, the WebSocket connection
handler)

The per-call closure state becomes an explicit `SessionState`; each tool-call
event carries (as an oracle) what the calendar adapter would return for the
remote operations that event triggers, and the handler additionally reports
the outbound realtime messages it sends and the remote operations it issues. -/

/-- The session mode fixed at stream start. -/
inductive Mode where
  | receptionist
  | spanishCoach
deriving DecidableEq

/-- The tool names the dispatcher recognizes, plus the catch-all for any other
name (the source compares the name string against five literals). -/
inductive ToolName where
  | booking_check_availability
  | booking_create_appointment
  | find_event
  | update_event
  | cancel_event
  | unknownTool (name : String)
deriving DecidableEq

/-- index.ts lines 620-626: the tool names that trigger the calendar filler. -/
def isCalendarTool : ToolName → Bool
  | .unknownTool _ => false
  | _ => true

/-- The display string of a tool name. -/
def toolNameString : ToolName → String
  | .booking_check_availability => "booking_check_availability"
  | .booking_create_appointment => "booking_create_appointment"
  | .find_event => "find_event"
  | .update_event => "update_event"
  | .cancel_event => "cancel_event"
  | .unknownTool name => name

/-- A parsed JSON field value as far as the argument validators look at it. -/
inductive JsonVal where
  | str (s : String)
  | num (n : Int)
  | other
deriving DecidableEq

/-- A parsed JSON object (field name to value, first binding wins as in a JS
object literal after parse). -/
abbrev ArgsObj := List (String × JsonVal)

/-- The `toolCall.arguments` payload after the parse step of index.ts lines
635-648: either the JSON parse failed, or an object of fields (a missing or
empty payload is the empty object). -/
inductive RawArguments where
  | parseFail
  | obj (fields : ArgsObj)
deriving DecidableEq

/-- A required string field is present with string type. -/
def isStrField (o : ArgsObj) (k : String) : Bool :=
  match mapGet o k with
  | some (.str _) => true
  | _ => false

/-- An optional field is absent or a string. -/
def isOptStrField (o : ArgsObj) (k : String) : Bool :=
  match mapGet o k with
  | none => true
  | some (.str _) => true
  | _ => false

/-- An optional field is absent or a number. -/
def isOptNumField (o : ArgsObj) (k : String) : Bool :=
  match mapGet o k with
  | none => true
  | some (.num _) => true
  | _ => false

/-- The string value of a validated required field. -/
def strField (o : ArgsObj) (k : String) : String :=
  match mapGet o k with
  | some (.str s) => s
  | _ => ""

/-- The string value of a validated optional field. -/
def optStrField (o : ArgsObj) (k : String) : Option String :=
  match mapGet o k with
  | some (.str s) => some s
  | _ => none

/-- index.ts `isBookingCreateAppointmentInput`. -/
def isBookingCreateAppointmentInput (o : ArgsObj) : Bool :=
  isStrField o "startISO" && isStrField o "endISO" && isStrField o "name" &&
    isStrField o "reason" && isOptStrField o "phone" && isOptStrField o "timezone"

/-- index.ts `isBookingFindAppointmentInput`. -/
def isBookingFindAppointmentInput (o : ArgsObj) : Bool :=
  isOptStrField o "startISO" && isOptStrField o "timezone" && isOptStrField o "name" &&
    isOptNumField o "daysAhead"

/-- index.ts `isBookingUpdateAppointmentInput`. -/
def isBookingUpdateAppointmentInput (o : ArgsObj) : Bool :=
  isStrField o "eventId" && isStrField o "startISO" && isStrField o "endISO" &&
    isOptStrField o "summary" && isOptStrField o "description" && isOptStrField o "timezone"

/-- index.ts `isBookingCancelAppointmentInput`. -/
def isBookingCancelAppointmentInput (o : ArgsObj) : Bool :=
  isStrField o "eventId"

/-- A tool-call result as cached and serialized back to the realtime AI. -/
inductive ToolOutput where
  | availability (r : BookingCheckAvailabilityOutput)
  | createResult (r : BookingCreateAppointmentOutput)
  | findResult (r : BookingFindAppointmentOutput)
  | updateResult (r : BookingUpdateAppointmentOutput)
  | cancelResult (r : BookingCancelAppointmentOutput)
  | errorResult (code message : String)
deriving DecidableEq

/-- An outbound message to the realtime AI connection. -/
inductive OutMsg where
  | fillerResponse (toolName toolCallId : String)
  | functionCallOutput (callId : String) (output : ToolOutput)
  | responseInstructions (instructions : String)
deriving DecidableEq

/-- Per-event oracle: what the calendar adapter would return (or throw) for
each remote operation the booking layer might issue while handling the event. -/
structure AdapterOracle where
  createOutcome : Except AdapterError (Option CreateEventRes)
  availabilityOutcome : Except AdapterError BookingCheckAvailabilityOutput
  findOutcome : Except AdapterError (List String)
  updateOutcome : Except AdapterError CreateEventRes
  cancelOutcome : Except AdapterError Unit
deriving DecidableEq

/-- One tool-call event delivered by the realtime AI, stamped with the
`Date.now()` value at processing time. -/
structure ToolEvent where
  name : ToolName
  callId : String
  arguments : RawArguments
  now : Nat
  adapter : AdapterOracle
deriving DecidableEq

/-- The fields of index.ts `callSummaryState` that the tool dispatcher and the
claim checker read or write (the phone/time bookkeeping fields are omitted). -/
structure CallSummaryState where
  callerName : Option String
  primaryReason : Option String
  appointmentStartISO : Option String
  appointmentBooked : Option Bool
  appointmentRequested : Bool
  followUpNote : Option String
deriving DecidableEq

/-- The per-connection closure state of the WebSocket handler. -/
structure SessionState where
  processedToolCalls : List (String × ToolOutput)
  inflightToolCalls : List String
  recentAppointments : List (String × Nat × BookingCreateAppointmentOutput)
  lastBookingCreateResult : Option BookingCreateAppointmentOutput
  lastBookingCreateCallId : Option String
  bookingCorrectionSent : Bool
  callSummary : CallSummaryState
  assistantBuffer : String
  callSid : Option String
  streamSid : Option String
  conversationId : Option String
  openaiOpen : Bool
  mode : Mode
  metrics : CoachMetrics
  optedOut : Bool
deriving DecidableEq

/-- index.ts `captureReason` (a JS truthiness check on the string). -/
def captureReason (cs : CallSummaryState) (reason : String) : CallSummaryState :=
  if reason ≠ "" then { cs with primaryReason := some reason } else cs

/-- index.ts `captureCallerName`. -/
def captureCallerName (cs : CallSummaryState) (name : String) : CallSummaryState :=
  if name ≠ "" ∧ cs.callerName = none then { cs with callerName := some name } else cs

/-- index.ts `markFollowUp`. -/
def markFollowUp (cs : CallSummaryState) (note : String) : CallSummaryState :=
  if cs.followUpNote = none then { cs with followUpNote := some note } else cs

/-- index.ts `sendToolOutput`: emit the function-call output when the realtime
socket is open, silently drop it otherwise. -/
def sendToolOutput (s : SessionState) (toolCallId : String) (output : ToolOutput) :
    List OutMsg :=
  if s.openaiOpen then [.functionCallOutput toolCallId output] else []

/-- index.ts `sendToolOutputCached`: record the result in the tool-call cache,
clear the in-flight marker, and send. -/
def sendToolOutputCached (s : SessionState) (toolCallId : String) (output : ToolOutput) :
    SessionState × List OutMsg :=
  let s' := { s with
    processedToolCalls := mapSet s.processedToolCalls toolCallId output,
    inflightToolCalls := setDelete s.inflightToolCalls toolCallId }
  (s', sendToolOutput s' toolCallId output)

/-- index.ts `sendCalendarFiller`. -/
def sendCalendarFiller (s : SessionState) (toolName : ToolName) (toolCallId : String) :
    List OutMsg :=
  if s.openaiOpen then [.fillerResponse (toolNameString toolName) toolCallId] else []

/-- The instruction text built by index.ts `sendBookingFailureResponse`. -/
def bookingFailureInstructions (reason : String) : String :=
  "Tell the caller: \"" ++ reason ++
    "\" Keep it short and offer to take a message or have someone follow up."

/-- index.ts `sendBookingFailureResponse`. -/
def sendBookingFailureResponse (s : SessionState) (reason : String) : List OutMsg :=
  if s.openaiOpen then [.responseInstructions (bookingFailureInstructions reason)] else []

/-- index.ts `sendBookingFailureNotice`. -/
def sendBookingFailureNotice (s : SessionState) (result : BookingCreateAppointmentOutput) :
    List OutMsg :=
  if result.created then []
  else
    sendBookingFailureResponse s
      (if result.dryRun then
        "I'm in test mode, so I can't finalize that booking. Would you like to leave a message or have someone follow up?"
      else
        "I wasn't able to book that appointment right now. Would you like to leave a message or have someone follow up?")

/-- index.ts `sendBookingCorrection`: latched on `bookingCorrectionSent`. -/
def sendBookingCorrection (s : SessionState) (reason : String) :
    SessionState × List OutMsg :=
  if s.bookingCorrectionSent then (s, [])
  else ({ s with bookingCorrectionSent := true }, sendBookingFailureResponse s reason)

/-- index.ts `appointmentDedupeWindowMs` (2 minutes). -/
def appointmentDedupeWindowMs : Nat := 2 * 60 * 1000

/-- index.ts `buildAppointmentDedupeKey` (over the session identifiers the
closure reads). -/
def buildAppointmentDedupeKey (callSid streamSid : Option String)
    (startISO endISO : String) : String :=
  (callSid.getD (streamSid.getD "unknown-session")) ++ ":" ++ startISO ++ ":" ++ endISO

/-- index.ts `buildIdempotencySource`. -/
def buildIdempotencySource (callSid streamSid conversationId : Option String) : String :=
  callSid.getD (streamSid.getD (conversationId.getD "unknown-session"))

/-- The `booking_create_appointment` fresh-create path (index.ts lines
696-715 and the catch at 779-796): drop any stale dedupe entry, issue the
create, record the result for the dedupe window and the claim checker, update
the call summary, cache and send the output (plus the failure notice when the
result is not created), or cache the typed error and apologize. -/
def handleCreateFresh (cfg : BookingConfig) (s1 : SessionState) (e : ToolEvent)
    (parsedArgs : ArgsObj) (fillerMsgs : List OutMsg) (dedupeKey : String) :
    SessionState × List OutMsg × List RemoteOp :=
  let s2 := { s1 with recentAppointments := mapDelete s1.recentAppointments dedupeKey }
  let createInput : BookingCreateAppointmentInput :=
    ⟨strField parsedArgs "startISO", strField parsedArgs "endISO",
      strField parsedArgs "name", strField parsedArgs "reason",
      optStrField parsedArgs "phone", optStrField parsedArgs "timezone",
      some (buildIdempotencySource s2.callSid s2.streamSid s2.conversationId), some e.callId⟩
  match createAppointment cfg createInput e.adapter.createOutcome with
  | (.ok result, ops) =>
    let s3 := { s2 with
      recentAppointments := mapSet s2.recentAppointments dedupeKey (e.now, result),
      lastBookingCreateResult := some result,
      lastBookingCreateCallId := some e.callId,
      bookingCorrectionSent := false,
      callSummary := { s2.callSummary with
        appointmentBooked := some result.created,
        appointmentStartISO := some result.startISO } }
    let sent := sendToolOutputCached s3 e.callId (.createResult result)
    (sent.1, fillerMsgs ++ sent.2 ++ sendBookingFailureNotice sent.1 result, ops)
  | (.error err, ops) =>
    let sent := sendToolOutputCached s2 e.callId (.errorResult err.code err.message)
    (sent.1,
      fillerMsgs ++ sent.2 ++ sendBookingFailureResponse sent.1
        "I couldn't book that appointment right now. Would you like to leave a message or have someone follow up?",
      ops)

/-- The `booking_create_appointment` branch after validation (index.ts lines
672-715): record summary fields, then either replay a dedupe-window hit
without any remote call, or run the fresh-create path. -/
def handleCreateValid (cfg : BookingConfig) (s : SessionState) (e : ToolEvent)
    (parsedArgs : ArgsObj) (fillerMsgs : List OutMsg) :
    SessionState × List OutMsg × List RemoteOp :=
  let cs1 := captureReason
    (captureCallerName { s.callSummary with appointmentRequested := true }
      (strField parsedArgs "name"))
    (strField parsedArgs "reason")
  let s1 := { s with callSummary := cs1 }
  let dedupeKey := buildAppointmentDedupeKey s1.callSid s1.streamSid
    (strField parsedArgs "startISO") (strField parsedArgs "endISO")
  match mapGet s1.recentAppointments dedupeKey with
  | some entry =>
    if e.now - entry.1 < appointmentDedupeWindowMs then
      let s2 := { s1 with
        lastBookingCreateResult := some entry.2,
        lastBookingCreateCallId := some e.callId,
        bookingCorrectionSent := false }
      let sent := sendToolOutputCached s2 e.callId (.createResult entry.2)
      (sent.1, fillerMsgs ++ sent.2, [])
    else handleCreateFresh cfg s1 e parsedArgs fillerMsgs dedupeKey
  | none => handleCreateFresh cfg s1 e parsedArgs fillerMsgs dedupeKey

/-- The `booking_check_availability` branch (no argument validation in the
source; thrown booking errors are cached like any other error). -/
def handleAvailability (cfg : BookingConfig) (s : SessionState) (e : ToolEvent)
    (fillerMsgs : List OutMsg) : SessionState × List OutMsg × List RemoteOp :=
  match checkAvailabilityTool e.adapter.availabilityOutcome with
  | (.ok result, ops) =>
    let sent := sendToolOutputCached s e.callId (.availability result)
    (sent.1, fillerMsgs ++ sent.2, ops)
  | (.error err, ops) =>
    let sent := sendToolOutputCached s e.callId (.errorResult err.code err.message)
    (sent.1, fillerMsgs ++ sent.2, ops)

/-- The `find_event` branch (index.ts lines 717-735). -/
def handleFind (cfg : BookingConfig) (s : SessionState) (e : ToolEvent)
    (parsedArgs : ArgsObj) (fillerMsgs : List OutMsg) :
    SessionState × List OutMsg × List RemoteOp :=
  if isBookingFindAppointmentInput parsedArgs = false then
    let sent := sendToolOutputCached s e.callId
      (.errorResult "invalid_arguments" "Invalid appointment lookup request.")
    (sent.1, fillerMsgs ++ sent.2, [])
  else
    let cs1 := captureReason { s.callSummary with appointmentRequested := true }
      "Locate an existing appointment."
    let s1 := { s with callSummary := cs1 }
    match findAppointmentTool cfg (optStrField parsedArgs "timezone") e.adapter.findOutcome with
    | (.ok result, ops) =>
      let s2 :=
        if result.«matches».length = 0 then
          { s1 with callSummary := markFollowUp s1.callSummary "No matching appointment found." }
        else s1
      let sent := sendToolOutputCached s2 e.callId (.findResult result)
      (sent.1, fillerMsgs ++ sent.2, ops)
    | (.error err, ops) =>
      let sent := sendToolOutputCached s1 e.callId (.errorResult err.code err.message)
      (sent.1, fillerMsgs ++ sent.2, ops)

/-- The `update_event` branch (index.ts lines 736-753): a confirmed update
writes `appointmentBooked := result.updated`. -/
def handleUpdate (cfg : BookingConfig) (s : SessionState) (e : ToolEvent)
    (parsedArgs : ArgsObj) (fillerMsgs : List OutMsg) :
    SessionState × List OutMsg × List RemoteOp :=
  if isBookingUpdateAppointmentInput parsedArgs = false then
    let sent := sendToolOutputCached s e.callId
      (.errorResult "invalid_arguments" "Missing required update fields: eventId, startISO, endISO.")
    (sent.1, fillerMsgs ++ sent.2, [])
  else
    let cs1 := captureReason { s.callSummary with appointmentRequested := true }
      "Reschedule an existing appointment."
    let s1 := { s with callSummary := cs1 }
    match updateAppointmentTool cfg (strField parsedArgs "eventId")
        (strField parsedArgs "startISO") (strField parsedArgs "endISO")
        (optStrField parsedArgs "timezone") e.adapter.updateOutcome with
    | (.ok result, ops) =>
      let s2 := { s1 with callSummary := { s1.callSummary with
        appointmentBooked := some result.updated,
        appointmentStartISO := some result.startISO } }
      let sent := sendToolOutputCached s2 e.callId (.updateResult result)
      (sent.1, fillerMsgs ++ sent.2, ops)
    | (.error err, ops) =>
      let sent := sendToolOutputCached s1 e.callId (.errorResult err.code err.message)
      (sent.1, fillerMsgs ++ sent.2, ops)

/-- The `cancel_event` branch (index.ts lines 754-774). -/
def handleCancel (cfg : BookingConfig) (s : SessionState) (e : ToolEvent)
    (parsedArgs : ArgsObj) (fillerMsgs : List OutMsg) :
    SessionState × List OutMsg × List RemoteOp :=
  if isBookingCancelAppointmentInput parsedArgs = false then
    let sent := sendToolOutputCached s e.callId
      (.errorResult "invalid_arguments" "Missing required cancel fields: eventId.")
    (sent.1, fillerMsgs ++ sent.2, [])
  else
    let cs1 := captureReason { s.callSummary with appointmentRequested := true }
      "Cancel an existing appointment."
    let s1 := { s with callSummary := cs1 }
    match cancelAppointmentTool (strField parsedArgs "eventId") e.adapter.cancelOutcome with
    | (.ok result, ops) =>
      let s2 :=
        if result.cancelled = false then
          { s1 with callSummary := markFollowUp s1.callSummary "Cancellation not confirmed." }
        else { s1 with callSummary := { s1.callSummary with appointmentBooked := some false } }
      let sent := sendToolOutputCached s2 e.callId (.cancelResult result)
      (sent.1, fillerMsgs ++ sent.2, ops)
    | (.error err, ops) =>
      let sent := sendToolOutputCached s1 e.callId (.errorResult err.code err.message)
      (sent.1, fillerMsgs ++ sent.2, ops)

/-- index.ts `handleToolCall`: serve a cached identifier from the tool-call
cache; drop a duplicate of an in-flight identifier without replying; otherwise
mark in-flight, emit the calendar filler for calendar tools, parse and
validate, and dispatch to the booking layer. -/
def handleToolCall (cfg : BookingConfig) (s : SessionState) (e : ToolEvent) :
    SessionState × List OutMsg × List RemoteOp :=
  match mapGet s.processedToolCalls e.callId with
  | some cachedOutput => (s, sendToolOutput s e.callId cachedOutput, [])
  | none =>
    if setHas s.inflightToolCalls e.callId then (s, [], [])
    else
      let s0 := { s with inflightToolCalls := setAdd s.inflightToolCalls e.callId }
      let fillerMsgs :=
        if isCalendarTool e.name then sendCalendarFiller s0 e.name e.callId else []
      match e.arguments with
      | .parseFail =>
        let sent := sendToolOutputCached s0 e.callId
          (.errorResult "invalid_arguments" "Could not parse tool arguments.")
        (sent.1, fillerMsgs ++ sent.2, [])
      | .obj parsedArgs =>
        match e.name with
        | .booking_check_availability => handleAvailability cfg s0 e fillerMsgs
        | .booking_create_appointment =>
          if isBookingCreateAppointmentInput parsedArgs = false then
            let sent := sendToolOutputCached s0 e.callId
              (.errorResult "invalid_arguments"
                "Missing required appointment fields: startISO, endISO, name, reason.")
            (sent.1, fillerMsgs ++ sent.2, [])
          else handleCreateValid cfg s0 e parsedArgs fillerMsgs
        | .find_event => handleFind cfg s0 e parsedArgs fillerMsgs
        | .update_event => handleUpdate cfg s0 e parsedArgs fillerMsgs
        | .cancel_event => handleCancel cfg s0 e parsedArgs fillerMsgs
        | .unknownTool name =>
          let sent := sendToolOutputCached s0 e.callId
            (.errorResult "unknown_tool" ("Unknown tool: " ++ name))
          (sent.1, fillerMsgs ++ sent.2, [])

/-! ### Assistant-text finalization (index.ts `finalizeAssistantText`) -/

/-- JS word characters as used by the regex `\\b` boundary. -/
def isWordChar (c : Char) : Bool := c.isAlpha || c.isDigit || c == '_'

/-- Case-insensitive match of `phrase` (already lowercase) at the head of
`text`; returns the rest on success. -/
def matchPhraseHere : List Char → List Char → Option (List Char)
  | [], rest => some rest
  | _ :: _, [] => none
  | p :: ps, c :: cs => if p == c.toLower then matchPhraseHere ps cs else none

/-- The phrase matches here and is followed by a word boundary. -/
def occursAt (phrase text : List Char) : Bool :=
  match matchPhraseHere phrase text with
  | some [] => true
  | some (c :: _) => !isWordChar c
  | none => false

/-- Scan every position of `text` for a whole-word occurrence of `phrase`;
`prevIsWord` tracks whether the previous character was a word character (the
regex `\\b` before the phrase). -/
def occursAsWholeWord (phrase : List Char) : List Char → Bool → Bool
  | [], _ => false
  | c :: cs, prevIsWord =>
    (!prevIsWord && occursAt phrase (c :: cs)) || occursAsWholeWord phrase cs (isWordChar c)

/-- The confirmation verbs of index.ts `bookingClaimRegex`
(`\\b(appointment\\s+)?(booked|scheduled|confirmed|set up|locked in)\\b/i`);
the optional `appointment` prefix never changes whether the regex matches, so
the test reduces to a whole-word search for one of the verbs. -/
def bookingClaimPhrases : List String :=
  ["booked", "scheduled", "confirmed", "set up", "locked in"]

/-- Whether the assistant text contains booking-confirmation language. -/
def bookingClaimRegexTest (text : String) : Bool :=
  bookingClaimPhrases.any fun phrase => occursAsWholeWord phrase.data text.data false

/-- The marker phrases of the coaching branch. -/
def simplifiedPhrase : String := "Vamos a hacerlo más fácil."

/-- The repeat marker phrase. -/
def repeatPhrase : String := "Repito la pregunta."

/-- The opt-out acknowledgement phrase. -/
def optOutPhrase : String := "No recibirás más llamadas"

/-- JS whitespace as stripped by `String.prototype.trim` (the characters that
occur in this system's buffers). -/
def isJsWhitespace (c : Char) : Bool :=
  c == ' ' || c == '\t' || c == '\n' || c == '\r'

/-- JS `String.prototype.trim`: drop whitespace from both ends. -/
def stringTrim (s : String) : String :=
  ⟨(((s.data.dropWhile isJsWhitespace).reverse.dropWhile isJsWhitespace).reverse)⟩

/-- index.ts `noteAssistantText`. -/
def noteAssistantText (s : SessionState) (text : String) : SessionState :=
  { s with assistantBuffer := s.assistantBuffer ++ text }

/-- index.ts `finalizeAssistantText` (run on `response.text.done`): in
receptionist mode, scan the finished turn for a booking claim while the last
create result is not confirmed and issue the latched correction; in coaching
mode, update the marker counters; always clear the buffer. -/
def finalizeAssistantText (s : SessionState) : SessionState × List OutMsg :=
  match s.mode with
  | .receptionist =>
    let assistantText := stringTrim s.assistantBuffer
    if assistantText.length > 0 then
      let bookingClaimed := bookingClaimRegexTest assistantText
      let bookingConfirmed := (s.lastBookingCreateResult.map (fun r => r.created)).getD false
      if bookingClaimed && !bookingConfirmed then
        let reason :=
          if (s.lastBookingCreateResult.map (fun r => r.dryRun)).getD false then
            "Just to clarify, I'm in test mode and couldn't finalize that booking. Would you like to leave a message or have someone follow up?"
          else
            "Just to clarify, that appointment is not booked yet. Would you like to leave a message or have someone follow up?"
        let corrected := sendBookingCorrection s reason
        ({ corrected.1 with assistantBuffer := "" }, corrected.2)
      else ({ s with assistantBuffer := "" }, [])
    else ({ s with assistantBuffer := "" }, [])
  | .spanishCoach =>
    let m := s.metrics
    let m1 :=
      if stringIncludes s.assistantBuffer simplifiedPhrase then
        { m with simplifications := m.simplifications + 1 }
      else m
    let m2 :=
      if stringIncludes s.assistantBuffer repeatPhrase then
        { m1 with repeats := m1.repeats + 1 }
      else m1
    let opted := if stringIncludes s.assistantBuffer optOutPhrase then true else s.optedOut
    ({ s with metrics := m2, optedOut := opted, assistantBuffer := "" }, [])

/-- A freshly started receptionist session (after the `start` event resets the
booking-claim tracking fields). -/
def initSessionState : SessionState :=
  ⟨[], [], [], none, none, false, ⟨none, none, none, none, false, none⟩, "",
    some "CA100", some "MZ100", none, true, .receptionist, ⟨0, 0, 0, 0⟩, false⟩

/-! ### Concrete fixtures for witnesses and counterexamples -/

/-- A live (non-dry-run) booking configuration. -/
def cfgLive : BookingConfig := ⟨false, none⟩

/-- An oracle whose create returns a confirmed event id. -/
def oracleCreateOk : AdapterOracle :=
  ⟨.ok (some ⟨some "evt-1", none⟩), .ok ⟨[], "America/Phoenix", none⟩, .ok [],
    .ok ⟨some "evt-1", none⟩, .ok ()⟩

/-- An oracle whose every adapter call throws a non-configuration error. -/
def oracleNetworkFail : AdapterOracle :=
  ⟨.error (.thrown "socket hang up"), .error (.thrown "socket hang up"),
    .error (.thrown "socket hang up"), .error (.thrown "socket hang up"),
    .error (.thrown "socket hang up")⟩

/-- Valid `booking_create_appointment` arguments. -/
def createArgsW : ArgsObj :=
  [("startISO", .str "2025-03-04T17:00:00.000Z"), ("endISO", .str "2025-03-04T17:30:00.000Z"),
    ("name", .str "Ana Lopez"), ("reason", .str "teeth cleaning")]

/-- Valid `update_event` arguments. -/
def updateArgsW : ArgsObj :=
  [("eventId", .str "evt-1"), ("startISO", .str "2025-03-05T17:00:00.000Z"),
    ("endISO", .str "2025-03-05T17:30:00.000Z")]

/-- Three create deliveries of the same (start, end): 10 s apart, then exactly
at the 2-minute window boundary. -/
def eCreate1 : ToolEvent :=
  ⟨.booking_create_appointment, "tc-c1", .obj createArgsW, 1000000, oracleCreateOk⟩

/-- The second delivery, 10 seconds later under a fresh identifier. -/
def eCreate2 : ToolEvent :=
  ⟨.booking_create_appointment, "tc-c2", .obj createArgsW, 1010000, oracleCreateOk⟩

/-- The third delivery, after the dedupe window expired. -/
def eCreate3 : ToolEvent :=
  ⟨.booking_create_appointment, "tc-c3", .obj createArgsW, 1120000, oracleCreateOk⟩

/-- A successful `update_event` call. -/
def eUpdate1 : ToolEvent :=
  ⟨.update_event, "tc-u1", .obj updateArgsW, 1020000, oracleCreateOk⟩

/-- A create attempt that fails with a thrown adapter error. -/
def eCreateFail1 : ToolEvent :=
  ⟨.booking_create_appointment, "tc-f1", .obj createArgsW, 1000000, oracleNetworkFail⟩

/-- A second failing create attempt (a new booking attempt). -/
def eCreateFail2 : ToolEvent :=
  ⟨.booking_create_appointment, "tc-f2", .obj createArgsW, 1030000, oracleNetworkFail⟩

/-- A session whose cache already holds a result for `tc-c1`. -/
def cachedStateW : SessionState :=
  { initSessionState with
    processedToolCalls := [("tc-c1", .createResult
      ⟨false, true, some "evt-1", none, some "Caller requested: teeth cleaning.",
        "2025-03-04T17:00:00.000Z", "2025-03-04T17:30:00.000Z", "America/Phoenix"⟩)] }

/-- A re-delivery of the already-cached identifier `tc-c1`. -/
def eCachedW : ToolEvent :=
  ⟨.booking_create_appointment, "tc-c1", .obj createArgsW, 1040000, oracleCreateOk⟩

/-- The create output produced by the fresh-create path when the adapter
returns event id `id` (non-empty) for argument object `a`. -/
def confirmedCreateOutput (cfg : BookingConfig) (a : ArgsObj) (r : CreateEventRes)
    (id : String) : BookingCreateAppointmentOutput :=
  ⟨false, true, some id, r.htmlLink,
    some ("Caller requested: " ++ strField a "reason" ++ "."),
    strField a "startISO", strField a "endISO",
    resolveTimezone cfg (optStrField a "timezone")⟩

/-! ### The Google adapter's idempotency cache (GoogleCalendarAdapter.ts) -/

/-- GoogleCalendarAdapter.ts `IDEMPOTENCY_TTL_MS` (5 minutes). -/
def IDEMPOTENCY_TTL_MS : Nat := 5 * 60 * 1000

/-- The status of a GoogleCalendarAdapter.ts `idempotencyCache` entry. -/
inductive IdemStatus where
  | inflight
  | done
deriving DecidableEq

/-- A GoogleCalendarAdapter.ts `idempotencyCache` entry
(`{status, eventId?, htmlLink?, createdAt}`). -/
structure IdemEntry where
  status : IdemStatus
  eventId : Option String
  htmlLink : Option String
  createdAt : Nat
deriving DecidableEq

/-- GoogleCalendarAdapter.ts `pruneIdempotencyCache`: delete every entry with
`now - entry.createdAt > IDEMPOTENCY_TTL_MS`, i.e. keep those within the
5-minute TTL. -/
def pruneIdempotencyCache (now : Nat) (cache : List (String × IdemEntry)) :
    List (String × IdemEntry) :=
  cache.filter (fun kv => decide (now - kv.2.createdAt ≤ IDEMPOTENCY_TTL_MS))

/-- The idempotency key built by GoogleCalendarAdapter.ts `createEvent`:
`idempotencySource:calendarId:startISO:endISO` with the
`?? "unknown-session"` default. -/
def googleIdempotencyKey (calendarId : String) (idemSource : Option String)
    (startISO endISO : String) : String :=
  idemSource.getD "unknown-session" ++ ":" ++ calendarId ++ ":" ++ startISO ++ ":" ++ endISO

/-- The observable effect of one GoogleCalendarAdapter.ts `createEvent` call:
the value returned to the booking layer (or the error rethrown), the
idempotency cache left behind, and the `calendar.events.insert` calls actually
issued to Google. -/
structure GoogleCreateStep where
  outcome : Except AdapterError (Option CreateEventRes)
  cache : List (String × IdemEntry)
  inserts : List RemoteOp
deriving DecidableEq

/-- GoogleCalendarAdapter.ts `createEvent` (lines 114-207): in dry-run return
`null` without touching the cache or Google; otherwise prune the cache and
serve a live entry for the key without any remote insert (execution is
sequential per tool-call event: every earlier call ran to completion and its
`finally` cleared `inflightPromises`, so the in-flight promise map is empty
between events and an `inflight` entry falls through to the cached-fields
return). On a miss, record an in-flight entry, issue the remote insert
(`remote` is the oracle for what `calendar.events.insert` resolves or rejects
with), overwrite the entry as `done` with the returned id on success, or
delete it and rethrow on failure. The `createdAt` stamps reuse the event's
`Date.now()` reading. -/
def googleCreateEvent (dryRun : Bool) (calendarId : String) (idemSource : Option String)
    (startISO endISO : String) (now : Nat) (cache : List (String × IdemEntry))
    (remote : Except AdapterError CreateEventRes) : GoogleCreateStep :=
  if dryRun then ⟨.ok none, cache, []⟩
  else
    let key := googleIdempotencyKey calendarId idemSource startISO endISO
    let pruned := pruneIdempotencyCache now cache
    match mapGet pruned key with
    | some entry => ⟨.ok (some ⟨entry.eventId, entry.htmlLink⟩), pruned, []⟩
    | none =>
      let marked := mapSet pruned key ⟨.inflight, none, none, now⟩
      match remote with
      | .ok res =>
        ⟨.ok (some res), mapSet marked key ⟨.done, res.eventId, res.htmlLink, now⟩,
          [.createEvent startISO endISO]⟩
      | .error err => ⟨.error err, mapDelete marked key, [.createEvent startISO endISO]⟩

/-- Whether a remote operation is an `adapter.createEvent` invocation. -/
def isCreateOp : RemoteOp → Bool
  | .createEvent _ _ => true
  | _ => false

/-- The argument object carried by a tool event (empty on a parse failure; no
parse-failure path reaches the adapter). -/
def eventArgsObj : RawArguments → ArgsObj
  | .parseFail => []
  | .obj o => o

/-- The Google-adapter `createEvent` step the bridge's create path would run
for this event in this session: the key parts are exactly what
`handleCreateFresh` passes the adapter (`buildIdempotencySource` over the
session identifiers, and the event's parsed startISO/endISO). -/
def googleStepOf (cfg : BookingConfig) (calendarId : String) (s : SessionState)
    (cache : List (String × IdemEntry)) (e : ToolEvent)
    (remote : Except AdapterError CreateEventRes) : GoogleCreateStep :=
  googleCreateEvent cfg.dryRun calendarId
    (some (buildIdempotencySource s.callSid s.streamSid s.conversationId))
    (strField (eventArgsObj e.arguments) "startISO")
    (strField (eventArgsObj e.arguments) "endISO") e.now cache remote

/-- The event as the bridge sees it once the adapter-level create outcome `o`
is substituted for the per-event create oracle. -/
def adapterEventOf (e : ToolEvent) (o : Except AdapterError (Option CreateEventRes)) :
    ToolEvent :=
  { e with adapter := { e.adapter with createOutcome := o } }

/-- index.ts `handleToolCall` composed with GoogleCalendarAdapter.ts
`createEvent`, the layer the booking path's `adapter.createEvent` call goes
through. `handleToolCall` reports `RemoteOp.createEvent` exactly when
`createAppointment` invokes the adapter (every non-dry-run branch of
`createAppointment`, and no other path), so the composed step feeds that
invocation through `googleCreateEvent`: the outcome the bridge observes is the
adapter's, the idempotency cache advances exactly when the adapter is invoked,
and the remote operations reported are the `calendar.events.insert` calls the
adapter actually issued (non-create operations pass through unchanged). -/
def handleToolCallG (cfg : BookingConfig) (calendarId : String) (s : SessionState)
    (cache : List (String × IdemEntry)) (e : ToolEvent)
    (remote : Except AdapterError CreateEventRes) :
    (SessionState × List (String × IdemEntry)) × List OutMsg × List RemoteOp :=
  let g := googleStepOf cfg calendarId s cache e remote
  let r := handleToolCall cfg s (adapterEventOf e g.outcome)
  ((r.1, if r.2.2.any isCreateOp then g.cache else cache), r.2.1,
    r.2.2.flatMap (fun op => if isCreateOp op then g.inserts else [op]))

/-- A fourth identical create delivery, after the adapter's 5-minute
idempotency TTL has expired. -/
def eCreate4 : ToolEvent :=
  ⟨.booking_create_appointment, "tc-c4", .obj createArgsW, 1300001, oracleCreateOk⟩

-- ===== THEOREMS =====

/-! ### Map and set lemmas -/

theorem mapGet_mapSet_self {α : Type} (m : List (String × α)) (k : String) (v : α) :
    mapGet (mapSet m k v) k = some v := by
  induction m with
  | nil => simp [mapSet, mapGet]
  | cons kv rest ih =>
    obtain ⟨k', v'⟩ := kv
    by_cases h : k' = k
    · subst h; simp [mapSet, mapGet]
    · simp [mapSet, mapGet, h, ih]

theorem mapGet_mapSet_ne {α : Type} (m : List (String × α)) (k k' : String) (v : α)
    (h : k' ≠ k) : mapGet (mapSet m k v) k' = mapGet m k' := by
  induction m with
  | nil => simp [mapSet, mapGet, Ne.symm h]
  | cons kv rest ih =>
    obtain ⟨k0, v0⟩ := kv
    by_cases h0 : k0 = k
    · subst h0
      simp only [mapSet, if_pos rfl]
      simp [mapGet, Ne.symm h]
    · simp only [mapSet, if_neg h0]
      by_cases h1 : k0 = k'
      · subst h1; simp [mapGet]
      · simp [mapGet, h1, ih]

theorem mapGet_mapDelete_ne {α : Type} (m : List (String × α)) (k k' : String)
    (h : k' ≠ k) : mapGet (mapDelete m k) k' = mapGet m k' := by
  induction m with
  | nil => simp [mapDelete]
  | cons kv rest ih =>
    obtain ⟨k0, v0⟩ := kv
    by_cases h0 : k0 = k
    · subst h0
      simp only [mapDelete, if_pos rfl]
      simp [mapGet, Ne.symm h]
    · simp only [mapDelete, if_neg h0]
      by_cases h1 : k0 = k'
      · subst h1; simp [mapGet]
      · simp [mapGet, h1, ih]

theorem setHas_append_single (l : List String) (k k' : String) (h : k' ≠ k) :
    setHas (l ++ [k]) k' = setHas l k' := by
  induction l with
  | nil => simp [setHas, Ne.symm h]
  | cons x rest ih =>
    by_cases hx : x = k'
    · subst hx; simp [setHas]
    · simp [setHas, hx, ih]

theorem setHas_setAdd_ne (l : List String) (k k' : String) (h : k' ≠ k) :
    setHas (setAdd l k) k' = setHas l k' := by
  unfold setAdd
  split
  · rfl
  · exact setHas_append_single l k k' h

theorem setHas_setDelete_ne (l : List String) (k k' : String) (h : k' ≠ k) :
    setHas (setDelete l k) k' = setHas l k' := by
  induction l with
  | nil => simp [setDelete]
  | cons x rest ih =>
    by_cases hx : x = k
    · subst hx
      simp [setDelete, setHas, ih, Ne.symm h]
    · simp only [setDelete, if_neg hx]
      by_cases hx' : x = k'
      · subst hx'; simp [setHas]
      · simp [setHas, hx', ih]

theorem mapSet_of_get_none {α : Type} (c : List (String × α)) (k : String) (v : α)
    (h : mapGet c k = none) : mapSet c k v = c ++ [(k, v)] := by
  induction c with
  | nil => rfl
  | cons kv rest ih =>
    obtain ⟨k1, v1⟩ := kv
    simp only [mapGet] at h
    split at h
    · simp at h
    · rename_i hk
      simp only [mapSet, if_neg hk, List.cons_append]
      rw [ih h]

theorem mapSet_append_single {α : Type} (c : List (String × α)) (k : String) (v v' : α)
    (h : mapGet c k = none) : mapSet (c ++ [(k, v)]) k v' = c ++ [(k, v')] := by
  induction c with
  | nil => simp [mapSet]
  | cons kv rest ih =>
    obtain ⟨k1, v1⟩ := kv
    simp only [mapGet] at h
    split at h
    · simp at h
    · rename_i hk
      simp only [List.cons_append, mapSet, if_neg hk]
      exact congrArg (List.cons (k1, v1)) (ih h)

theorem mapGet_append_of_none {α : Type} (c d : List (String × α)) (k : String)
    (h : mapGet c k = none) : mapGet (c ++ d) k = mapGet d k := by
  induction c with
  | nil => rfl
  | cons kv rest ih =>
    obtain ⟨k1, v1⟩ := kv
    simp only [mapGet] at h
    split at h
    · simp at h
    · rename_i hk
      simp only [List.cons_append, mapGet, if_neg hk]
      exact ih h

theorem mapGet_prune_none (now : Nat) (cache : List (String × IdemEntry)) (k : String)
    (h : mapGet cache k = none) :
    mapGet (pruneIdempotencyCache now cache) k = none := by
  induction cache with
  | nil => rfl
  | cons kv rest ih =>
    obtain ⟨k1, v1⟩ := kv
    simp only [mapGet] at h
    split at h
    · simp at h
    · rename_i hk
      simp only [pruneIdempotencyCache, List.filter_cons]
      split
      · simp only [mapGet, if_neg hk]
        exact ih h
      · exact ih h

theorem prune_append (now : Nat) (c d : List (String × IdemEntry)) :
    pruneIdempotencyCache now (c ++ d) =
      pruneIdempotencyCache now c ++ pruneIdempotencyCache now d := by
  simp [pruneIdempotencyCache, List.filter_append]

theorem prune_single_kept (now : Nat) (k : String) (entry : IdemEntry)
    (h : now - entry.createdAt ≤ IDEMPOTENCY_TTL_MS) :
    pruneIdempotencyCache now [(k, entry)] = [(k, entry)] := by
  simp [pruneIdempotencyCache]
  omega

theorem prune_single_dropped (now : Nat) (k : String) (entry : IdemEntry)
    (h : ¬ now - entry.createdAt ≤ IDEMPOTENCY_TTL_MS) :
    pruneIdempotencyCache now [(k, entry)] = [] := by
  simp [pruneIdempotencyCache]
  omega

/-! ### Session dispatch lemmas -/

@[simp] theorem captureReason_appointmentBooked (cs : CallSummaryState) (r : String) :
    (captureReason cs r).appointmentBooked = cs.appointmentBooked := by
  unfold captureReason; split <;> rfl

@[simp] theorem captureCallerName_appointmentBooked (cs : CallSummaryState) (n : String) :
    (captureCallerName cs n).appointmentBooked = cs.appointmentBooked := by
  unfold captureCallerName; split <;> rfl

@[simp] theorem markFollowUp_appointmentBooked (cs : CallSummaryState) (n : String) :
    (markFollowUp cs n).appointmentBooked = cs.appointmentBooked := by
  unfold markFollowUp; split <;> rfl

theorem handleToolCall_cacheHit (cfg : BookingConfig) (s : SessionState) (e : ToolEvent)
    (out : ToolOutput) (hc : mapGet s.processedToolCalls e.callId = some out) :
    handleToolCall cfg s e = (s, sendToolOutput s e.callId out, []) := by
  unfold handleToolCall
  rw [hc]

theorem handleToolCall_frame (cfg : BookingConfig) (s : SessionState) (e : ToolEvent) :
    (handleToolCall cfg s e).1.openaiOpen = s.openaiOpen ∧
      (handleToolCall cfg s e).1.callSid = s.callSid ∧
      (handleToolCall cfg s e).1.streamSid = s.streamSid ∧
      (handleToolCall cfg s e).1.conversationId = s.conversationId ∧
      (handleToolCall cfg s e).1.mode = s.mode ∧
      (handleToolCall cfg s e).1.assistantBuffer = s.assistantBuffer ∧
      (handleToolCall cfg s e).1.metrics = s.metrics ∧
      (handleToolCall cfg s e).1.optedOut = s.optedOut := by
  unfold handleToolCall handleAvailability handleCreateValid handleCreateFresh
    handleFind handleUpdate handleCancel sendToolOutputCached
  repeat' first | split | dsimp only
  all_goals exact ⟨rfl, rfl, rfl, rfl, rfl, rfl, rfl, rfl⟩

theorem handleToolCall_completes (cfg : BookingConfig) (s : SessionState) (e : ToolEvent)
    (hc : mapGet s.processedToolCalls e.callId = none)
    (hi : setHas s.inflightToolCalls e.callId = false) :
    ∃ out, (handleToolCall cfg s e).1.processedToolCalls =
        mapSet s.processedToolCalls e.callId out ∧
      (s.openaiOpen = true →
        OutMsg.functionCallOutput e.callId out ∈ (handleToolCall cfg s e).2.1) := by
  unfold handleToolCall handleAvailability handleCreateValid handleCreateFresh
    handleFind handleUpdate handleCancel sendToolOutputCached sendToolOutput
  rw [hc]
  rw [if_neg (by simp [hi])]
  repeat' first | dsimp only | split
  all_goals refine ⟨_, rfl, fun ho => ?_⟩
  all_goals simp_all [List.mem_append]

/-! ### Availability resolver lemmas -/

theorem scanCursors_length (durationMin : Int) (eb : List ExpandedInterval) :
    ∀ cursors slots : List Int, slots.length ≤ 1 →
      (scanCursors durationMin eb slots cursors).1.length ≤ 2 ∧
        ((scanCursors durationMin eb slots cursors).2 = false →
          (scanCursors durationMin eb slots cursors).1.length ≤ 1) := by
  intro cursors
  induction cursors with
  | nil =>
    intro slots h
    simp only [scanCursors]
    exact ⟨h.trans (by norm_num), fun _ => h⟩
  | cons c rest ih =>
    intro slots h
    simp only [scanCursors]
    split
    · exact ih slots h
    · split
      · rename_i hb h2
        refine ⟨?_, fun hf => absurd hf (by simp)⟩
        simp only [List.length_append, List.length_cons, List.length_nil] at h2 ⊢
        omega
      · rename_i hb h2
        refine ih (slots ++ [c]) ?_
        simp only [List.length_append, List.length_cons, List.length_nil] at h2 ⊢
        omega

theorem findLoop_length (input : SlotFinderInput) (eb : List ExpandedInterval) :
    ∀ (n : Nat) (day : Int) (slots : List Int), slots.length ≤ 1 →
      (findLoop input eb n day slots).length ≤ 2 := by
  intro n
  induction n with
  | zero => intro day slots h; simpa [findLoop] using h.trans (by norm_num)
  | succ n ih =>
    intro day slots h
    simp only [findLoop]
    split
    · exact ih (day + 1) slots h
    · split
      · split
        · exact ih (day + 1) slots h
        · split
          · exact h.trans (by norm_num)
          · simp only [List.length_append, List.length_cons, List.length_nil]
            omega
      · split
        · rename_i hfull
          exact (scanCursors_length _ _ _ slots h).1
        · rename_i hfull
          exact ih (day + 1) _
            ((scanCursors_length _ _ _ slots h).2 (by simpa using hfull))

theorem scanCursors_mem (durationMin : Int) (eb : List ExpandedInterval) :
    ∀ (cursors slots : List Int) (s : Int), s ∈ (scanCursors durationMin eb slots cursors).1 →
      s ∈ slots ∨ isSlotBusy s durationMin eb = false := by
  intro cursors
  induction cursors with
  | nil => intro slots s hs; exact Or.inl (by simpa [scanCursors] using hs)
  | cons c rest ih =>
    intro slots s hs
    simp only [scanCursors] at hs
    split at hs
    · exact ih slots s hs
    · split at hs
      · rename_i hb h2
        rcases List.mem_append.mp hs with h | h
        · exact Or.inl h
        · simp only [List.mem_singleton] at h
          subst h
          exact Or.inr (by simpa using hb)
      · rename_i hb h2
        rcases ih (slots ++ [c]) s hs with h | h
        · rcases List.mem_append.mp h with h' | h'
          · exact Or.inl h'
          · simp only [List.mem_singleton] at h'
            subst h'
            exact Or.inr (by simpa using hb)
        · exact Or.inr h

theorem findLoop_mem (input : SlotFinderInput) (eb : List ExpandedInterval) :
    ∀ (n : Nat) (day : Int) (slots : List Int) (s : Int), s ∈ findLoop input eb n day slots →
      s ∈ slots ∨ isSlotBusy s input.durationMinutes eb = false := by
  intro n
  induction n with
  | zero => intro day slots s hs; exact Or.inl (by simpa [findLoop] using hs)
  | succ n ih =>
    intro day slots s hs
    simp only [findLoop] at hs
    split at hs
    · exact ih _ _ _ hs
    · split at hs
      · split at hs
        · exact ih _ _ _ hs
        · split at hs
          · exact Or.inl hs
          · rename_i hb
            rcases List.mem_append.mp hs with h | h
            · exact Or.inl h
            · simp only [List.mem_singleton] at h
              subst h
              exact Or.inr (by simpa using hb)
      · split at hs
        · exact scanCursors_mem _ _ _ _ _ hs
        · rcases ih _ _ _ hs with h | h
          · exact scanCursors_mem _ _ _ _ _ h
          · exact Or.inr h

theorem findAvailableSlots_not_busy (input : SlotFinderInput) (s : Int)
    (hs : s ∈ findAvailableSlots input) :
    isSlotBusy s input.durationMinutes (expandBusy input) = false := by
  unfold findAvailableSlots at hs
  rcases findLoop_mem input (expandBusy input) _ _ _ s hs with h | h
  · simp at h
  · exact h

theorem scanCursors_take (durationMin : Int) (eb : List ExpandedInterval) :
    ∀ cursors slots : List Int, slots.length ≤ 1 →
      (scanCursors durationMin eb slots cursors).1 =
          (slots ++ scanCursorsAll durationMin eb cursors).take 2 ∧
        ((scanCursors durationMin eb slots cursors).2 = false →
          (slots ++ scanCursorsAll durationMin eb cursors).length ≤ 1) ∧
        ((scanCursors durationMin eb slots cursors).2 = true →
          2 ≤ (slots ++ scanCursorsAll durationMin eb cursors).length) := by
  intro cursors
  induction cursors with
  | nil =>
    intro slots h
    refine ⟨?_, fun _ => by simpa using h, fun hf => by simp [scanCursors] at hf⟩
    simp only [scanCursors, scanCursorsAll, List.append_nil]
    exact (List.take_of_length_le (h.trans (by norm_num))).symm
  | cons c rest ih =>
    intro slots h
    simp only [scanCursors, scanCursorsAll]
    split
    · exact ih slots h
    · split
      · rename_i hb h2
        simp only [List.length_append, List.length_cons, List.length_nil] at h2
        have hlen1 : slots.length = 1 := by omega
        obtain ⟨x, hx⟩ : ∃ x, slots = [x] := by
          rcases slots with _ | ⟨x, rest'⟩
          · simp at hlen1
          · rcases rest' with _ | _
            · exact ⟨x, rfl⟩
            · simp at hlen1
        subst hx
        refine ⟨by simp, fun hf => by simp at hf, fun _ => by simp⟩
      · rename_i hb h2
        simp only [List.length_append, List.length_cons, List.length_nil] at h2
        have hnil : slots = [] := by
          rcases slots with _ | _
          · rfl
          · exfalso
            simp at h2
        subst hnil
        simpa using ih [c] (by simp)

theorem findLoop_take (input : SlotFinderInput) (eb : List ExpandedInterval)
    (hnp : input.timePreference = TimePreference.morning ∨
      input.timePreference = TimePreference.afternoon ∨
      input.timePreference = TimePreference.any) :
    ∀ (n : Nat) (day : Int) (slots : List Int), slots.length ≤ 1 →
      findLoop input eb n day slots =
        (slots ++ findLoopAll input eb n day).take 2 := by
  intro n
  induction n with
  | zero =>
    intro day slots h
    simp only [findLoop, findLoopAll, List.append_nil]
    exact (List.take_of_length_le (h.trans (by norm_num))).symm
  | succ n ih =>
    intro day slots h
    rcases hnp with htp | htp | htp <;>
    · simp only [findLoop, findLoopAll, htp]
      split
      · exact ih (day + 1) slots h
      · obtain ⟨htake, hfalse, htrue⟩ :=
          scanCursors_take input.durationMinutes eb _ slots h
        split
        · rename_i hfull
          have h2 := htrue hfull
          rw [htake, ← List.append_assoc, List.take_append_of_le_length h2]
        · rename_i hfull
          have hlen := hfalse (by simpa using hfull)
          rw [ih (day + 1) _ (by rw [htake, List.take_of_length_le (hlen.trans (by norm_num))]; exact hlen)]
          rw [htake, List.take_of_length_le (hlen.trans (by norm_num)), List.append_assoc]

/-- C5: without an exact-time preference the resolver returns at most two
slots, and its result is exactly the first two slots of the uncapped scan
(the deliberate early stop at two). -/
theorem C5_slot_cap (input : SlotFinderInput)
    (hnp : ∀ h m, input.timePreference ≠ TimePreference.specific h m) :
    (findAvailableSlots input).length ≤ 2 ∧
      findAvailableSlots input = (findAvailableSlotsNoCap input).take 2 := by
  constructor
  · unfold findAvailableSlots
    exact findLoop_length input _ _ _ _ (by simp)
  · have hnp' : input.timePreference = TimePreference.morning ∨
        input.timePreference = TimePreference.afternoon ∨
        input.timePreference = TimePreference.any := by
      rcases htp : input.timePreference with _ | _ | ⟨hh, mm⟩ | _
      · exact Or.inl rfl
      · exact Or.inr (Or.inl rfl)
      · exact absurd htp (hnp hh mm)
      · exact Or.inr (Or.inr rfl)
    unfold findAvailableSlots findAvailableSlotsNoCap
    simpa using findLoop_take input (expandBusy input) hnp' _ _ [] (by simp)

/-- C5 witness: the cap and the take-2 refinement on the concrete scenario
input. -/
theorem C5_slot_cap_witness :
    (findAvailableSlots slotScenarioInput).length ≤ 2 ∧
      findAvailableSlots slotScenarioInput =
        (findAvailableSlotsNoCap slotScenarioInput).take 2 :=
  C5_slot_cap slotScenarioInput (by intro hh mm; simp [slotScenarioInput])

/-- C6 (amended): a returned candidate never overlaps a busy interval expanded
by the buffer on both sides (a slot is rejected exactly when
slotStart < busyEnd + buffer and slotEnd > busyStart - buffer); on the spec's
scenario (minutes of the day: 9:00 = 540, 9:15 = 555, window 540-1020, busy
600-630, duration 30, buffer 10) the resolver returns 9:00 and 9:15 as the
first two slots and never returns 9:50 = 590. -/
theorem C6_buffer_respected :
    (∀ (input : SlotFinderInput), ∀ s ∈ findAvailableSlots input, ∀ b ∈ input.busyIntervals,
        ¬(s < b.«end» + input.bufferMinutes ∧
          b.start - input.bufferMinutes < s + input.durationMinutes)) ∧
      findAvailableSlots slotScenarioInput = [540, 555] ∧
      (590 : Int) ∉ findAvailableSlots slotScenarioInput := by
  refine ⟨?_, by decide, by decide⟩
  intro input s hs b hb hcontra
  have hfree := findAvailableSlots_not_busy input s hs
  have hmem : ExpandedInterval.mk (b.start - input.bufferMinutes)
      (b.«end» + input.bufferMinutes) ∈ expandBusy input :=
    List.mem_map_of_mem _ hb
  simp only [isSlotBusy, List.any_eq_false, Bool.and_eq_true, decide_eq_true_eq,
    not_and] at hfree
  exact hfree _ hmem hcontra.1 hcontra.2

/-- C6 counterexample: the claim's scenario asserts the first two returned
slots are 9:00 and 10:40 (minutes 540 and 640); the resolver actually
returns 9:00 and 9:15 (540 and 555), and 640 is not in the result at all. -/
theorem C6_claimed_second_slot_false :
    findAvailableSlots slotScenarioInput = [540, 555] ∧
      (640 : Int) ∉ findAvailableSlots slotScenarioInput := by decide

/-! ### Coaching score: C10 -/

/-- C10: computeScore never exceeds 40, so the level computed from a call
score is always A0 or A1; A2 and B1 are unreachable from call scoring. -/
theorem C10_score_cap (m : CoachMetrics) :
    computeScore m ≤ 40 ∧
      (mapScoreToLevel (computeScore m) = "A0" ∨ mapScoreToLevel (computeScore m) = "A1") := by
  have hcap : computeScore m ≤ 40 := by
    simp only [computeScore, Int.max_def, Int.min_def]
    split_ifs <;> omega
  refine ⟨hcap, ?_⟩
  by_cases h25 : computeScore m ≤ 25
  · exact Or.inl (by simp [mapScoreToLevel, h25])
  · have h50 : computeScore m ≤ 50 := hcap.trans (by norm_num)
    exact Or.inr (by simp [mapScoreToLevel, h25, h50])

/-- C10 witness: the level at a concrete metrics record. -/
theorem C10_score_cap_witness :
    computeScore ⟨0, 0, 5, 3⟩ ≤ 40 ∧
      (mapScoreToLevel (computeScore ⟨0, 0, 5, 3⟩) = "A0" ∨
        mapScoreToLevel (computeScore ⟨0, 0, 5, 3⟩) = "A1") :=
  C10_score_cap ⟨0, 0, 5, 3⟩

/-! ### Calendar gateway retry: C8 -/

/-- C8: a rate-limited attempt is retried with the fixed 500ms/1.5s/3s backoff
schedule; a non-rate-limit error propagates immediately with no retry; and when
all four attempts rate-limit, the last error propagates after the full
schedule. -/
theorem C8_rate_limit_retry :
    (∀ (T : Type) (fn : Nat → Except CalError T) (e : CalError),
        fn 0 = .error e → isRateLimitError e = false →
        withCalendarRetry fn = (.error e, [])) ∧
    (∀ (T : Type) (fn : Nat → Except CalError T) (k : Nat) (v : T), k ≤ 3 →
        (∀ i, i < k → ∃ e, fn i = .error e ∧ isRateLimitError e = true) →
        fn k = .ok v →
        withCalendarRetry fn = (.ok v, RATE_LIMIT_RETRY_DELAYS_MS.take k)) ∧
    (∀ (T : Type) (fn : Nat → Except CalError T) (e3 : CalError),
        (∀ i, i < 3 → ∃ e, fn i = .error e ∧ isRateLimitError e = true) →
        fn 3 = .error e3 →
        withCalendarRetry fn = (.error e3, [500, 1500, 3000])) := by
  refine ⟨?_, ?_, ?_⟩
  · intro T fn e hf hr
    simp [withCalendarRetry, withCalendarRetryGo, hf, hr]
  · intro T fn k v hk herr hok
    interval_cases k
    · simp [withCalendarRetry, withCalendarRetryGo, hok, RATE_LIMIT_RETRY_DELAYS_MS]
    · obtain ⟨e0, hf0, hr0⟩ := herr 0 (by norm_num)
      simp [withCalendarRetry, withCalendarRetryGo, hf0, hr0, hok,
        RATE_LIMIT_RETRY_DELAYS_MS]
    · obtain ⟨e0, hf0, hr0⟩ := herr 0 (by norm_num)
      obtain ⟨e1, hf1, hr1⟩ := herr 1 (by norm_num)
      simp [withCalendarRetry, withCalendarRetryGo, hf0, hr0, hf1, hr1, hok,
        RATE_LIMIT_RETRY_DELAYS_MS]
    · obtain ⟨e0, hf0, hr0⟩ := herr 0 (by norm_num)
      obtain ⟨e1, hf1, hr1⟩ := herr 1 (by norm_num)
      obtain ⟨e2, hf2, hr2⟩ := herr 2 (by norm_num)
      simp [withCalendarRetry, withCalendarRetryGo, hf0, hr0, hf1, hr1, hf2, hr2,
        hok, RATE_LIMIT_RETRY_DELAYS_MS]
  · intro T fn e3 herr hf3
    obtain ⟨e0, hf0, hr0⟩ := herr 0 (by norm_num)
    obtain ⟨e1, hf1, hr1⟩ := herr 1 (by norm_num)
    obtain ⟨e2, hf2, hr2⟩ := herr 2 (by norm_num)
    simp [withCalendarRetry, withCalendarRetryGo, hf0, hr0, hf1, hr1, hf2, hr2,
      hf3, RATE_LIMIT_RETRY_DELAYS_MS]

/-! ### Booking create: C7 -/

/-- C7: outside dry-run, a create whose adapter result lacks a non-empty event
id raises the typed booking error instead of reporting success, and any
successful output carries created = true together with a non-empty event id. -/
theorem C7_unconfirmed_create (cfg : BookingConfig) (input : BookingCreateAppointmentInput)
    (adapterCreate : Except AdapterError (Option CreateEventRes))
    (hdry : cfg.dryRun = false) :
    (∀ result, adapterCreate = .ok result →
        (result.bind (fun r => r.eventId) = none ∨
          result.bind (fun r => r.eventId) = some "") →
        (createAppointment cfg input adapterCreate).1 =
          .error ⟨"booking_error", "Unable to confirm appointment booking."⟩) ∧
    (∀ out, (createAppointment cfg input adapterCreate).1 = .ok out →
        out.created = true ∧ ∃ id, out.eventId = some id ∧ id ≠ "") := by
  constructor
  · rintro result rfl hid
    rcases hid with h | h <;> simp [createAppointment, hdry, h]
  · intro out hout
    cases adapterCreate with
    | error err =>
      rcases hcfg : isBookingConfigError err <;>
        simp [createAppointment, hdry, hcfg] at hout
    | ok result =>
      rcases hres : result.bind (fun r => r.eventId) with _ | id
      · simp [createAppointment, hdry, hres] at hout
      · by_cases hid : id = ""
        · subst hid
          simp [createAppointment, hdry, hres] at hout
        · have hne : (id != "") = true := by simpa using hid
          simp [createAppointment, hdry, hres, hne] at hout
          refine ⟨?_, id, ?_, hid⟩
          · rw [← hout]
          · rw [← hout]

/-- C7 witness: an adapter result with a missing event id raises the typed
error at a concrete input. -/
theorem C7_unconfirmed_create_witness :
    (∀ result, (Except.ok (some (CreateEventRes.mk none none)) :
          Except AdapterError (Option CreateEventRes)) = .ok result →
        (result.bind (fun r => r.eventId) = none ∨
          result.bind (fun r => r.eventId) = some "") →
        (createAppointment ⟨false, none⟩
            ⟨"2025-01-02T10:00:00Z", "2025-01-02T10:30:00Z", "Ana", "cleaning",
              none, none, none, none⟩
            (.ok (some ⟨none, none⟩))).1 =
          .error ⟨"booking_error", "Unable to confirm appointment booking."⟩) ∧
    (∀ out, (createAppointment ⟨false, none⟩
          ⟨"2025-01-02T10:00:00Z", "2025-01-02T10:30:00Z", "Ana", "cleaning",
            none, none, none, none⟩
          (.ok (some ⟨none, none⟩))).1 = .ok out →
        out.created = true ∧ ∃ id, out.eventId = some id ∧ id ≠ "") :=
  C7_unconfirmed_create ⟨false, none⟩
    ⟨"2025-01-02T10:00:00Z", "2025-01-02T10:30:00Z", "Ana", "cleaning",
      none, none, none, none⟩
    (.ok (some ⟨none, none⟩)) rfl

/-! ### Create-path lemmas -/

theorem createAppointment_ops (cfg : BookingConfig) (input : BookingCreateAppointmentInput)
    (ac : Except AdapterError (Option CreateEventRes)) (hdry : cfg.dryRun = false) :
    (createAppointment cfg input ac).2 =
      [RemoteOp.createEvent input.startISO input.endISO] := by
  unfold createAppointment
  rw [if_neg (by simp [hdry])]
  split
  · dsimp only
    split <;> rfl
  · split <;> rfl

theorem createAppointment_confirmed (cfg : BookingConfig)
    (input : BookingCreateAppointmentInput) (r : CreateEventRes) (id : String)
    (hdry : cfg.dryRun = false) (hid : r.eventId = some id) (hidne : id ≠ "") :
    createAppointment cfg input (.ok (some r)) =
      (.ok ⟨false, true, some id, r.htmlLink,
          some ("Caller requested: " ++ input.reason ++ "."),
          input.startISO, input.endISO, resolveTimezone cfg input.timezone⟩,
        [.createEvent input.startISO input.endISO]) := by
  have hne : (id != "") = true := by simpa using hidne
  simp [createAppointment, hdry, hid, hne]

theorem createAppointment_no_id (cfg : BookingConfig)
    (input : BookingCreateAppointmentInput) (res : Option CreateEventRes)
    (hdry : cfg.dryRun = false)
    (hid : res.bind (fun r => r.eventId) = none ∨ res.bind (fun r => r.eventId) = some "") :
    createAppointment cfg input (.ok res) =
      (.error ⟨"booking_error", "Unable to confirm appointment booking."⟩,
        [.createEvent input.startISO input.endISO]) := by
  rcases hid with h | h <;> simp [createAppointment, hdry, h]

theorem createAppointment_ok_source (cfg : BookingConfig)
    (input : BookingCreateAppointmentInput) (ac : Except AdapterError (Option CreateEventRes))
    (result : BookingCreateAppointmentOutput) (ops : List RemoteOp)
    (h : createAppointment cfg input ac = (.ok result, ops))
    (hcreated : result.created = true) :
    ∃ res, ac = .ok res ∧ ∃ id, res.bind (fun r => r.eventId) = some id ∧ id ≠ "" := by
  unfold createAppointment at h
  split at h
  · exfalso
    simp only [Prod.mk.injEq, Except.ok.injEq] at h
    rw [← h.1] at hcreated
    simp at hcreated
  · split at h
    · rename_i res
      by_cases hcr : (match res.bind (fun r => r.eventId) with
          | some id => id != ""
          | none => false) = true
      · refine ⟨res, rfl, ?_⟩
        rcases hres : res.bind (fun r => r.eventId) with _ | id
        · rw [hres] at hcr; simp at hcr
        · rw [hres] at hcr
          simp only [bne_iff_ne, ne_eq] at hcr
          exact ⟨id, rfl, hcr⟩
      · rw [if_neg hcr] at h
        simp at h
    · split at h <;> simp at h

theorem updateAppointmentTool_ok_source (cfg : BookingConfig)
    (eventId startISO endISO : String) (tz : Option String)
    (outcome : Except AdapterError CreateEventRes)
    (result : BookingUpdateAppointmentOutput) (ops : List RemoteOp)
    (h : updateAppointmentTool cfg eventId startISO endISO tz outcome = (.ok result, ops)) :
    ∃ r, outcome = .ok r := by
  rcases outcome with err | r
  · exfalso
    unfold updateAppointmentTool at h
    dsimp only at h
    split at h <;> simp at h
  · exact ⟨r, rfl⟩

/-- The fully-computed effect of the fresh-create path when the adapter
confirms the event with a non-empty id. -/
theorem handleCreateFresh_confirmed (cfg : BookingConfig) (s1 : SessionState)
    (e : ToolEvent) (a : ArgsObj) (f : List OutMsg) (k : String)
    (r : CreateEventRes) (id : String)
    (hdry : cfg.dryRun = false)
    (hres : e.adapter.createOutcome = .ok (some r))
    (hid : r.eventId = some id)
    (hidne : id ≠ "") :
    (handleCreateFresh cfg s1 e a f k).2.2 =
        [RemoteOp.createEvent (strField a "startISO") (strField a "endISO")] ∧
      mapGet (handleCreateFresh cfg s1 e a f k).1.recentAppointments k =
        some (e.now, confirmedCreateOutput cfg a r id) ∧
      (handleCreateFresh cfg s1 e a f k).1.processedToolCalls =
        mapSet s1.processedToolCalls e.callId
          (.createResult (confirmedCreateOutput cfg a r id)) ∧
      (handleCreateFresh cfg s1 e a f k).1.inflightToolCalls =
        setDelete s1.inflightToolCalls e.callId ∧
      (handleCreateFresh cfg s1 e a f k).1.bookingCorrectionSent = false ∧
      (handleCreateFresh cfg s1 e a f k).1.lastBookingCreateResult =
        some (confirmedCreateOutput cfg a r id) ∧
      (handleCreateFresh cfg s1 e a f k).1.callSummary.appointmentBooked = some true ∧
      (handleCreateFresh cfg s1 e a f k).1.callSid = s1.callSid ∧
      (handleCreateFresh cfg s1 e a f k).1.streamSid = s1.streamSid ∧
      (handleCreateFresh cfg s1 e a f k).1.openaiOpen = s1.openaiOpen ∧
      (s1.openaiOpen = true →
        OutMsg.functionCallOutput e.callId
          (.createResult (confirmedCreateOutput cfg a r id)) ∈
          (handleCreateFresh cfg s1 e a f k).2.1) := by
  unfold handleCreateFresh sendToolOutputCached sendToolOutput confirmedCreateOutput
  dsimp only
  rw [hres, createAppointment_confirmed cfg _ r id hdry hid hidne]
  refine ⟨rfl, ?_, rfl, rfl, rfl, rfl, rfl, rfl, rfl, rfl, fun ho => ?_⟩
  · exact mapGet_mapSet_self _ _ _
  · simp [ho, List.mem_append]

/-- Outside dry-run the fresh-create path always issues exactly one remote
create, whatever the adapter outcome. -/
theorem handleCreateFresh_ops (cfg : BookingConfig) (s1 : SessionState) (e : ToolEvent)
    (a : ArgsObj) (f : List OutMsg) (k : String) (hdry : cfg.dryRun = false) :
    (handleCreateFresh cfg s1 e a f k).2.2 =
      [RemoteOp.createEvent (strField a "startISO") (strField a "endISO")] := by
  unfold handleCreateFresh
  dsimp only
  split
  · rename_i result ops heq
    have hops := (createAppointment_ops cfg _ e.adapter.createOutcome hdry).symm.trans
      (congrArg Prod.snd heq)
    exact hops.symm
  · rename_i err ops heq
    have hops := (createAppointment_ops cfg _ e.adapter.createOutcome hdry).symm.trans
      (congrArg Prod.snd heq)
    exact hops.symm

/-- The fresh-create path on an adapter result without a usable event id:
the typed booking error is cached and surfaced, and neither the summary's
booked flag nor the correction latch changes. -/
theorem handleCreateFresh_no_id (cfg : BookingConfig) (s1 : SessionState) (e : ToolEvent)
    (a : ArgsObj) (f : List OutMsg) (k : String) (res : Option CreateEventRes)
    (hdry : cfg.dryRun = false)
    (hres : e.adapter.createOutcome = .ok res)
    (hid : res.bind (fun r => r.eventId) = none ∨ res.bind (fun r => r.eventId) = some "") :
    (handleCreateFresh cfg s1 e a f k).1.callSummary.appointmentBooked =
        s1.callSummary.appointmentBooked ∧
      (handleCreateFresh cfg s1 e a f k).1.bookingCorrectionSent =
        s1.bookingCorrectionSent ∧
      (handleCreateFresh cfg s1 e a f k).1.lastBookingCreateResult =
        s1.lastBookingCreateResult ∧
      (s1.openaiOpen = true →
        OutMsg.functionCallOutput e.callId
          (.errorResult "booking_error" "Unable to confirm appointment booking.") ∈
          (handleCreateFresh cfg s1 e a f k).2.1) := by
  unfold handleCreateFresh sendToolOutputCached sendToolOutput
  dsimp only
  rw [hres, createAppointment_no_id cfg _ res hdry hid]
  refine ⟨rfl, rfl, rfl, fun ho => ?_⟩
  simp [ho, List.mem_append]

/-- The thrown-error fresh-create path: the typed error is cached and the
correction latch, last result and booked flag are untouched. -/
theorem handleCreateFresh_thrown (cfg : BookingConfig) (s1 : SessionState) (e : ToolEvent)
    (a : ArgsObj) (f : List OutMsg) (k : String) (msg : String)
    (hdry : cfg.dryRun = false)
    (hres : e.adapter.createOutcome = .error (.thrown msg))
    (hcfgerr : isBookingConfigError (.thrown msg) = false) :
    (handleCreateFresh cfg s1 e a f k).1.bookingCorrectionSent =
        s1.bookingCorrectionSent ∧
      (handleCreateFresh cfg s1 e a f k).1.lastBookingCreateResult =
        s1.lastBookingCreateResult ∧
      (handleCreateFresh cfg s1 e a f k).1.callSummary.appointmentBooked =
        s1.callSummary.appointmentBooked ∧
      (s1.openaiOpen = true →
        OutMsg.functionCallOutput e.callId
          (.errorResult "booking_error" "Unable to create appointment.") ∈
          (handleCreateFresh cfg s1 e a f k).2.1) := by
  have hcreate : createAppointment cfg
      ⟨strField a "startISO", strField a "endISO", strField a "name", strField a "reason",
        optStrField a "phone", optStrField a "timezone",
        some (buildIdempotencySource s1.callSid s1.streamSid s1.conversationId),
        some e.callId⟩ e.adapter.createOutcome =
      (.error ⟨"booking_error", "Unable to create appointment."⟩,
        [.createEvent (strField a "startISO") (strField a "endISO")]) := by
    rw [hres]
    simp [createAppointment, hdry, hcfgerr]
  unfold handleCreateFresh sendToolOutputCached sendToolOutput
  dsimp only
  rw [hcreate]
  refine ⟨rfl, rfl, rfl, fun ho => ?_⟩
  simp [ho, List.mem_append]

/-- When the dedupe map has no live entry for the requested key, the create
branch takes the fresh path. -/
theorem handleCreateValid_fresh (cfg : BookingConfig) (s : SessionState) (e : ToolEvent)
    (a : ArgsObj) (f : List OutMsg)
    (hmiss : ∀ t r0, mapGet s.recentAppointments
        (buildAppointmentDedupeKey s.callSid s.streamSid (strField a "startISO")
          (strField a "endISO")) = some (t, r0) →
      ¬ e.now - t < appointmentDedupeWindowMs) :
    handleCreateValid cfg s e a f =
      handleCreateFresh cfg
        { s with callSummary :=
            (captureReason
              (captureCallerName { s.callSummary with appointmentRequested := true }
                (strField a "name"))
              (strField a "reason")) }
        e a f
        (buildAppointmentDedupeKey s.callSid s.streamSid (strField a "startISO")
          (strField a "endISO")) := by
  unfold handleCreateValid
  dsimp only
  split
  · rename_i entry heq
    rw [if_neg (hmiss entry.1 entry.2 (by rw [← heq]))]
  · rfl

/-- The dedupe-window hit: the stored result is replayed under the new
identifier with no remote operation, the last-booking fields are refreshed and
the correction latch resets. -/
theorem handleCreateValid_dedupeHit (cfg : BookingConfig) (s : SessionState) (e : ToolEvent)
    (a : ArgsObj) (f : List OutMsg) (t : Nat) (r0 : BookingCreateAppointmentOutput)
    (hget : mapGet s.recentAppointments
      (buildAppointmentDedupeKey s.callSid s.streamSid (strField a "startISO")
        (strField a "endISO")) = some (t, r0))
    (hwin : e.now - t < appointmentDedupeWindowMs) :
    (handleCreateValid cfg s e a f).2.2 = [] ∧
      (handleCreateValid cfg s e a f).1.recentAppointments = s.recentAppointments ∧
      (handleCreateValid cfg s e a f).1.processedToolCalls =
        mapSet s.processedToolCalls e.callId (.createResult r0) ∧
      (handleCreateValid cfg s e a f).1.inflightToolCalls =
        setDelete s.inflightToolCalls e.callId ∧
      (handleCreateValid cfg s e a f).1.bookingCorrectionSent = false ∧
      (handleCreateValid cfg s e a f).1.lastBookingCreateResult = some r0 ∧
      (handleCreateValid cfg s e a f).1.callSid = s.callSid ∧
      (handleCreateValid cfg s e a f).1.streamSid = s.streamSid ∧
      (handleCreateValid cfg s e a f).1.openaiOpen = s.openaiOpen ∧
      (s.openaiOpen = true →
        OutMsg.functionCallOutput e.callId (.createResult r0) ∈
          (handleCreateValid cfg s e a f).2.1) := by
  unfold handleCreateValid sendToolOutputCached sendToolOutput
  dsimp only
  rw [hget]
  dsimp only
  rw [if_pos hwin]
  refine ⟨rfl, rfl, rfl, rfl, rfl, rfl, rfl, rfl, rfl, fun ho => ?_⟩
  simp [ho, List.mem_append]

/-- A fresh, valid create delivery reaches the create branch. -/
theorem handleToolCall_create_step (cfg : BookingConfig) (s : SessionState) (e : ToolEvent)
    (a : ArgsObj)
    (hc : mapGet s.processedToolCalls e.callId = none)
    (hi : setHas s.inflightToolCalls e.callId = false)
    (hname : e.name = .booking_create_appointment)
    (hargs : e.arguments = .obj a)
    (hvalid : isBookingCreateAppointmentInput a = true) :
    handleToolCall cfg s e =
      handleCreateValid cfg
        { s with inflightToolCalls := setAdd s.inflightToolCalls e.callId } e a
        (sendCalendarFiller
          { s with inflightToolCalls := setAdd s.inflightToolCalls e.callId }
          e.name e.callId) := by
  unfold handleToolCall
  rw [hc]
  rw [if_neg (by simp [hi])]
  dsimp only
  rw [hargs, hname]
  simp only [isCalendarTool, if_true, hvalid]
  rfl

/-! ### Tool-call cache: C9 and C2 -/

/-- C9: a tool-call event whose identifier is already in the processed cache
only resends the cached output: the session state is returned unchanged (so
the in-flight set, the dedupe map, the call summary and the last-booking
tracking fields keep their prior values), no filler is emitted and no remote
operation is performed. -/
theorem C9_cached_replay_frame (cfg : BookingConfig) (s : SessionState) (e : ToolEvent)
    (out : ToolOutput) (hc : mapGet s.processedToolCalls e.callId = some out)
    (hopen : s.openaiOpen = true) :
    handleToolCall cfg s e = (s, [OutMsg.functionCallOutput e.callId out], []) := by
  rw [handleToolCall_cacheHit cfg s e out hc]
  simp [sendToolOutput, hopen]

/-- C9 witness: the cached replay at a concrete state and event. -/
theorem C9_cached_replay_frame_witness :
    handleToolCall cfgLive cachedStateW eCachedW =
      (cachedStateW,
        [OutMsg.functionCallOutput "tc-c1" (ToolOutput.createResult
          ⟨false, true, some "evt-1", none, some "Caller requested: teeth cleaning.",
            "2025-03-04T17:00:00.000Z", "2025-03-04T17:30:00.000Z", "America/Phoenix"⟩)],
        []) :=
  C9_cached_replay_frame cfgLive cachedStateW eCachedW _ (by decide) rfl

/-- C2: a fresh tool-call identifier is cached once its processing completes;
a second delivery of the same identifier is answered from the cache with the
same result, performs no remote booking operation and changes no state; and a
delivery while the identifier is still in flight is dropped without a reply. -/
theorem C2_idempotent_dispatch (cfg : BookingConfig) (s : SessionState) (e e' : ToolEvent)
    (hc : mapGet s.processedToolCalls e.callId = none)
    (hi : setHas s.inflightToolCalls e.callId = false)
    (hopen : s.openaiOpen = true)
    (hsame : e'.callId = e.callId) :
    (∃ out,
      OutMsg.functionCallOutput e.callId out ∈ (handleToolCall cfg s e).2.1 ∧
      mapGet (handleToolCall cfg s e).1.processedToolCalls e.callId = some out ∧
      handleToolCall cfg (handleToolCall cfg s e).1 e' =
        ((handleToolCall cfg s e).1, [OutMsg.functionCallOutput e.callId out], [])) ∧
    (∀ s' : SessionState, setHas s'.inflightToolCalls e.callId = true →
      mapGet s'.processedToolCalls e.callId = none →
      handleToolCall cfg s' e = (s', [], [])) := by
  constructor
  · obtain ⟨out, hset, hmem⟩ := handleToolCall_completes cfg s e hc hi
    have hc1 : mapGet (handleToolCall cfg s e).1.processedToolCalls e.callId = some out := by
      rw [hset]; exact mapGet_mapSet_self _ _ _
    refine ⟨out, hmem hopen, hc1, ?_⟩
    have hopen1 : (handleToolCall cfg s e).1.openaiOpen = true := by
      rw [(handleToolCall_frame cfg s e).1]; exact hopen
    have hc1' : mapGet (handleToolCall cfg s e).1.processedToolCalls e'.callId = some out := by
      rw [hsame]; exact hc1
    rw [handleToolCall_cacheHit cfg _ e' out hc1']
    simp [sendToolOutput, hopen1, hsame]
  · intro s' hi' hc'
    unfold handleToolCall
    rw [hc']
    simp [hi']

/-- C2 witness: the idempotent dispatch behavior at a concrete fresh session
and a concrete create event. -/
theorem C2_idempotent_dispatch_witness :
    (∃ out,
      OutMsg.functionCallOutput eCreate1.callId out ∈
        (handleToolCall cfgLive initSessionState eCreate1).2.1 ∧
      mapGet (handleToolCall cfgLive initSessionState eCreate1).1.processedToolCalls
        eCreate1.callId = some out ∧
      handleToolCall cfgLive (handleToolCall cfgLive initSessionState eCreate1).1 eCreate1 =
        ((handleToolCall cfgLive initSessionState eCreate1).1,
          [OutMsg.functionCallOutput eCreate1.callId out], [])) ∧
    (∀ s' : SessionState, setHas s'.inflightToolCalls eCreate1.callId = true →
      mapGet s'.processedToolCalls eCreate1.callId = none →
      handleToolCall cfgLive s' eCreate1 = (s', [], [])) :=
  C2_idempotent_dispatch cfgLive initSessionState eCreate1 eCreate1 rfl rfl rfl rfl

/-! ### Dedupe window: C3 (bridge composed with the adapter idempotency cache) -/

/-- `createEvent` on a key that misses the pruned cache, with a successful
insert: the one insert is issued and a `done` entry is appended. -/
theorem googleCreateEvent_fresh_ok (calendarId : String) (idemSource : Option String)
    (startISO endISO : String) (now : Nat) (cache : List (String × IdemEntry))
    (res : CreateEventRes)
    (hmiss : mapGet (pruneIdempotencyCache now cache)
      (googleIdempotencyKey calendarId idemSource startISO endISO) = none) :
    googleCreateEvent false calendarId idemSource startISO endISO now cache (.ok res) =
      ⟨.ok (some res),
        pruneIdempotencyCache now cache ++
          [(googleIdempotencyKey calendarId idemSource startISO endISO,
            ⟨.done, res.eventId, res.htmlLink, now⟩)],
        [.createEvent startISO endISO]⟩ := by
  unfold googleCreateEvent
  rw [if_neg (by simp : ¬ ((false : Bool) = true))]
  dsimp only
  rw [hmiss]
  dsimp only
  rw [mapSet_of_get_none _ _ _ hmiss, mapSet_append_single _ _ _ _ hmiss]

/-- `createEvent` on a key whose pruned-cache entry is live: no remote insert,
the cached fields are returned, the cache is left pruned. -/
theorem googleCreateEvent_hit (calendarId : String) (idemSource : Option String)
    (startISO endISO : String) (now : Nat) (cache : List (String × IdemEntry))
    (remote : Except AdapterError CreateEventRes) (entry : IdemEntry)
    (hget : mapGet (pruneIdempotencyCache now cache)
      (googleIdempotencyKey calendarId idemSource startISO endISO) = some entry) :
    googleCreateEvent false calendarId idemSource startISO endISO now cache remote =
      ⟨.ok (some ⟨entry.eventId, entry.htmlLink⟩), pruneIdempotencyCache now cache, []⟩ := by
  unfold googleCreateEvent
  rw [if_neg (by simp : ¬ ((false : Bool) = true))]
  dsimp only
  rw [hget]

/-- Whatever the insert oracle does, a pruned-cache miss issues exactly one
remote insert. -/
theorem googleCreateEvent_miss_inserts (calendarId : String) (idemSource : Option String)
    (startISO endISO : String) (now : Nat) (cache : List (String × IdemEntry))
    (remote : Except AdapterError CreateEventRes)
    (hmiss : mapGet (pruneIdempotencyCache now cache)
      (googleIdempotencyKey calendarId idemSource startISO endISO) = none) :
    (googleCreateEvent false calendarId idemSource startISO endISO now cache
        remote).inserts =
      [.createEvent startISO endISO] := by
  unfold googleCreateEvent
  rw [if_neg (by simp : ¬ ((false : Bool) = true))]
  dsimp only
  rw [hmiss]
  cases remote <;> rfl

/-- The composed step, unfolded. -/
theorem handleToolCallG_run (cfg : BookingConfig) (calId : String) (s : SessionState)
    (cache : List (String × IdemEntry)) (e : ToolEvent)
    (remote : Except AdapterError CreateEventRes) :
    handleToolCallG cfg calId s cache e remote =
      (((handleToolCall cfg s
            (adapterEventOf e (googleStepOf cfg calId s cache e remote).outcome)).1,
          if (handleToolCall cfg s
                (adapterEventOf e (googleStepOf cfg calId s cache e remote).outcome)).2.2.any
              isCreateOp
            then (googleStepOf cfg calId s cache e remote).cache else cache),
        (handleToolCall cfg s
          (adapterEventOf e (googleStepOf cfg calId s cache e remote).outcome)).2.1,
        (handleToolCall cfg s
            (adapterEventOf e (googleStepOf cfg calId s cache e remote).outcome)).2.2.flatMap
          (fun op =>
            if isCreateOp op then (googleStepOf cfg calId s cache e remote).inserts
            else [op])) := rfl

/-- When the bridge reports its single adapter-create invocation, the composed
step's cache is the adapter's and its remote operations are the adapter's
actual inserts. -/
theorem handleToolCallG_create (cfg : BookingConfig) (calId : String) (s : SessionState)
    (cache : List (String × IdemEntry)) (e : ToolEvent)
    (remote : Except AdapterError CreateEventRes) (st en : String)
    (hops : (handleToolCall cfg s
        (adapterEventOf e (googleStepOf cfg calId s cache e remote).outcome)).2.2 =
      [.createEvent st en]) :
    handleToolCallG cfg calId s cache e remote =
      (((handleToolCall cfg s
            (adapterEventOf e (googleStepOf cfg calId s cache e remote).outcome)).1,
          (googleStepOf cfg calId s cache e remote).cache),
        (handleToolCall cfg s
          (adapterEventOf e (googleStepOf cfg calId s cache e remote).outcome)).2.1,
        (googleStepOf cfg calId s cache e remote).inserts) := by
  rw [handleToolCallG_run, hops]
  simp [isCreateOp]

/-- When the bridge performs no remote operation, the composed step leaves the
idempotency cache alone and issues nothing. -/
theorem handleToolCallG_noRemote (cfg : BookingConfig) (calId : String) (s : SessionState)
    (cache : List (String × IdemEntry)) (e : ToolEvent)
    (remote : Except AdapterError CreateEventRes)
    (hops : (handleToolCall cfg s
        (adapterEventOf e (googleStepOf cfg calId s cache e remote).outcome)).2.2 = []) :
    handleToolCallG cfg calId s cache e remote =
      (((handleToolCall cfg s
            (adapterEventOf e (googleStepOf cfg calId s cache e remote).outcome)).1,
          cache),
        (handleToolCall cfg s
          (adapterEventOf e (googleStepOf cfg calId s cache e remote).outcome)).2.1,
        []) := by
  rw [handleToolCallG_run, hops]
  simp

/-- The composed step returns the bridge's session state, so the session
identifiers and the socket flag survive it. -/
theorem handleToolCallG_frame (cfg : BookingConfig) (calId : String) (s : SessionState)
    (cache : List (String × IdemEntry)) (e : ToolEvent)
    (remote : Except AdapterError CreateEventRes) :
    (handleToolCallG cfg calId s cache e remote).1.1.openaiOpen = s.openaiOpen ∧
      (handleToolCallG cfg calId s cache e remote).1.1.callSid = s.callSid ∧
      (handleToolCallG cfg calId s cache e remote).1.1.streamSid = s.streamSid ∧
      (handleToolCallG cfg calId s cache e remote).1.1.conversationId =
        s.conversationId := by
  have h := handleToolCall_frame cfg s
    (adapterEventOf e (googleStepOf cfg calId s cache e remote).outcome)
  exact ⟨h.1, h.2.1, h.2.2.1, h.2.2.2.1⟩

/-- One composed fresh-confirmed create step: the dedupe window has no live
entry, the idempotency cache misses, and the insert returns a non-empty id.
Gives the outputs and the state facts later calls need. -/
theorem stepG_fresh_confirmed (cfg : BookingConfig) (calId : String) (s : SessionState)
    (cache : List (String × IdemEntry)) (e : ToolEvent) (a : ArgsObj)
    (res : CreateEventRes) (id : String)
    (hn : e.name = .booking_create_appointment) (ha : e.arguments = .obj a)
    (hvalid : isBookingCreateAppointmentInput a = true)
    (hdry : cfg.dryRun = false)
    (hid : res.eventId = some id) (hidne : id ≠ "")
    (hc : mapGet s.processedToolCalls e.callId = none)
    (hi : setHas s.inflightToolCalls e.callId = false)
    (hmiss : ∀ t r0, mapGet s.recentAppointments
        (buildAppointmentDedupeKey s.callSid s.streamSid (strField a "startISO")
          (strField a "endISO")) = some (t, r0) →
      ¬ e.now - t < appointmentDedupeWindowMs)
    (hgmiss : mapGet (pruneIdempotencyCache e.now cache)
      (googleIdempotencyKey calId
        (some (buildIdempotencySource s.callSid s.streamSid s.conversationId))
        (strField a "startISO") (strField a "endISO")) = none) :
    (handleToolCallG cfg calId s cache e (.ok res)).2.2 =
        [RemoteOp.createEvent (strField a "startISO") (strField a "endISO")] ∧
      (s.openaiOpen = true →
        OutMsg.functionCallOutput e.callId
          (.createResult (confirmedCreateOutput cfg a res id)) ∈
          (handleToolCallG cfg calId s cache e (.ok res)).2.1) ∧
      (handleToolCallG cfg calId s cache e (.ok res)).1.2 =
        pruneIdempotencyCache e.now cache ++
          [(googleIdempotencyKey calId
              (some (buildIdempotencySource s.callSid s.streamSid s.conversationId))
              (strField a "startISO") (strField a "endISO"),
            ⟨.done, res.eventId, res.htmlLink, e.now⟩)] ∧
      (handleToolCallG cfg calId s cache e (.ok res)).1.1.processedToolCalls =
        mapSet s.processedToolCalls e.callId
          (.createResult (confirmedCreateOutput cfg a res id)) ∧
      (handleToolCallG cfg calId s cache e (.ok res)).1.1.inflightToolCalls =
        setDelete (setAdd s.inflightToolCalls e.callId) e.callId ∧
      mapGet (handleToolCallG cfg calId s cache e (.ok res)).1.1.recentAppointments
          (buildAppointmentDedupeKey s.callSid s.streamSid (strField a "startISO")
            (strField a "endISO")) =
        some (e.now, confirmedCreateOutput cfg a res id) := by
  have hg : googleStepOf cfg calId s cache e (.ok res) =
      ⟨.ok (some res),
        pruneIdempotencyCache e.now cache ++
          [(googleIdempotencyKey calId
              (some (buildIdempotencySource s.callSid s.streamSid s.conversationId))
              (strField a "startISO") (strField a "endISO"),
            ⟨.done, res.eventId, res.htmlLink, e.now⟩)],
        [.createEvent (strField a "startISO") (strField a "endISO")]⟩ := by
    unfold googleStepOf
    rw [hdry, ha]
    exact googleCreateEvent_fresh_ok calId _ _ _ e.now cache res hgmiss
  have hresG : (adapterEventOf e
      (googleStepOf cfg calId s cache e (.ok res)).outcome).adapter.createOutcome =
      .ok (some res) := by
    show (googleStepOf cfg calId s cache e (.ok res)).outcome = .ok (some res)
    rw [hg]
  have hcG : mapGet s.processedToolCalls
      (adapterEventOf e (googleStepOf cfg calId s cache e (.ok res)).outcome).callId =
      none := hc
  have hiG : setHas s.inflightToolCalls
      (adapterEventOf e (googleStepOf cfg calId s cache e (.ok res)).outcome).callId =
      false := hi
  have hnG : (adapterEventOf e (googleStepOf cfg calId s cache e (.ok res)).outcome).name =
      .booking_create_appointment := hn
  have haG : (adapterEventOf e
      (googleStepOf cfg calId s cache e (.ok res)).outcome).arguments = .obj a := ha
  have hstep := handleToolCall_create_step cfg s
    (adapterEventOf e (googleStepOf cfg calId s cache e (.ok res)).outcome) a
    hcG hiG hnG haG hvalid
  set eG : ToolEvent :=
    adapterEventOf e (googleStepOf cfg calId s cache e (.ok res)).outcome with heGdef
  set sA : SessionState :=
    { s with inflightToolCalls := setAdd s.inflightToolCalls eG.callId } with hsAdef
  set fA : List OutMsg := sendCalendarFiller sA eG.name eG.callId with hfAdef
  have hmissA : ∀ t r0, mapGet sA.recentAppointments
      (buildAppointmentDedupeKey sA.callSid sA.streamSid (strField a "startISO")
        (strField a "endISO")) = some (t, r0) →
      ¬ eG.now - t < appointmentDedupeWindowMs := hmiss
  have hfresh := handleCreateValid_fresh cfg sA eG a fA hmissA
  set sB : SessionState :=
    { sA with callSummary :=
        (captureReason
          (captureCallerName { sA.callSummary with appointmentRequested := true }
            (strField a "name"))
          (strField a "reason")) } with hsBdef
  set keyA : String := buildAppointmentDedupeKey sA.callSid sA.streamSid
    (strField a "startISO") (strField a "endISO") with hkeyAdef
  obtain ⟨hops, hrec, hproc, hinf, hcorr, hlast, hbook, hsid, hss, hopenA, hmem⟩ :=
    handleCreateFresh_confirmed cfg sB eG a fA keyA res id hdry hresG hid hidne
  have hopsT : (handleToolCall cfg s eG).2.2 =
      [RemoteOp.createEvent (strField a "startISO") (strField a "endISO")] := by
    rw [hstep, hfresh]
    exact hops
  have hGrun := handleToolCallG_create cfg calId s cache e (.ok res)
    (strField a "startISO") (strField a "endISO") hopsT
  refine ⟨?_, ?_, ?_, ?_, ?_, ?_⟩
  · rw [hGrun, hg]
  · intro ho
    rw [hGrun]
    show OutMsg.functionCallOutput eG.callId
      (.createResult (confirmedCreateOutput cfg a res id)) ∈ (handleToolCall cfg s eG).2.1
    rw [hstep, hfresh]
    exact hmem ho
  · rw [hGrun, hg]
  · rw [hGrun]
    show (handleToolCall cfg s eG).1.processedToolCalls = _
    rw [hstep, hfresh]
    exact hproc
  · rw [hGrun]
    show (handleToolCall cfg s eG).1.inflightToolCalls = _
    rw [hstep, hfresh]
    exact hinf
  · rw [hGrun]
    show mapGet (handleToolCall cfg s eG).1.recentAppointments keyA = _
    rw [hstep, hfresh]
    exact hrec

/-- One composed dedupe-window replay step: the bridge answers from its
2-minute window, the adapter is never invoked, the idempotency cache is
untouched. -/
theorem stepG_dedupe_hit (cfg : BookingConfig) (calId : String) (s : SessionState)
    (cache : List (String × IdemEntry)) (e : ToolEvent) (a : ArgsObj)
    (remote : Except AdapterError CreateEventRes) (t : Nat)
    (r0 : BookingCreateAppointmentOutput)
    (hn : e.name = .booking_create_appointment) (ha : e.arguments = .obj a)
    (hvalid : isBookingCreateAppointmentInput a = true)
    (hc : mapGet s.processedToolCalls e.callId = none)
    (hi : setHas s.inflightToolCalls e.callId = false)
    (hget : mapGet s.recentAppointments
      (buildAppointmentDedupeKey s.callSid s.streamSid (strField a "startISO")
        (strField a "endISO")) = some (t, r0))
    (hwin : e.now - t < appointmentDedupeWindowMs) :
    (handleToolCallG cfg calId s cache e remote).2.2 = [] ∧
      (s.openaiOpen = true →
        OutMsg.functionCallOutput e.callId (.createResult r0) ∈
          (handleToolCallG cfg calId s cache e remote).2.1) ∧
      (handleToolCallG cfg calId s cache e remote).1.2 = cache ∧
      (handleToolCallG cfg calId s cache e remote).1.1.processedToolCalls =
        mapSet s.processedToolCalls e.callId (.createResult r0) ∧
      (handleToolCallG cfg calId s cache e remote).1.1.inflightToolCalls =
        setDelete (setAdd s.inflightToolCalls e.callId) e.callId ∧
      (handleToolCallG cfg calId s cache e remote).1.1.recentAppointments =
        s.recentAppointments := by
  have hcG : mapGet s.processedToolCalls
      (adapterEventOf e (googleStepOf cfg calId s cache e remote).outcome).callId =
      none := hc
  have hiG : setHas s.inflightToolCalls
      (adapterEventOf e (googleStepOf cfg calId s cache e remote).outcome).callId =
      false := hi
  have hnG : (adapterEventOf e (googleStepOf cfg calId s cache e remote).outcome).name =
      .booking_create_appointment := hn
  have haG : (adapterEventOf e
      (googleStepOf cfg calId s cache e remote).outcome).arguments = .obj a := ha
  have hstep := handleToolCall_create_step cfg s
    (adapterEventOf e (googleStepOf cfg calId s cache e remote).outcome) a
    hcG hiG hnG haG hvalid
  set eG : ToolEvent :=
    adapterEventOf e (googleStepOf cfg calId s cache e remote).outcome with heGdef
  set sA : SessionState :=
    { s with inflightToolCalls := setAdd s.inflightToolCalls eG.callId } with hsAdef
  set fA : List OutMsg := sendCalendarFiller sA eG.name eG.callId with hfAdef
  have hgetA : mapGet sA.recentAppointments
      (buildAppointmentDedupeKey sA.callSid sA.streamSid (strField a "startISO")
        (strField a "endISO")) = some (t, r0) := hget
  have hwinA : eG.now - t < appointmentDedupeWindowMs := hwin
  obtain ⟨hops, hrec, hproc, hinf, hcorr, hlast, hsid, hss, hopenA, hmem⟩ :=
    handleCreateValid_dedupeHit cfg sA eG a fA t r0 hgetA hwinA
  have hopsT : (handleToolCall cfg s eG).2.2 = [] := by
    rw [hstep]
    exact hops
  have hGrun := handleToolCallG_noRemote cfg calId s cache e remote hopsT
  refine ⟨?_, ?_, ?_, ?_, ?_, ?_⟩
  · rw [hGrun]
  · intro ho
    rw [hGrun]
    show OutMsg.functionCallOutput eG.callId (.createResult r0) ∈
      (handleToolCall cfg s eG).2.1
    rw [hstep]
    exact hmem ho
  · rw [hGrun]
  · rw [hGrun]
    show (handleToolCall cfg s eG).1.processedToolCalls = _
    rw [hstep]
    exact hproc
  · rw [hGrun]
    show (handleToolCall cfg s eG).1.inflightToolCalls = _
    rw [hstep]
    exact hinf
  · rw [hGrun]
    show (handleToolCall cfg s eG).1.recentAppointments = _
    rw [hstep]
    exact hrec

/-- One composed create step where the 2-minute dedupe window has expired but
the adapter's idempotency entry is still live: the bridge runs its fresh path
and invokes the adapter, the adapter answers from its cache, and no remote
insert happens — the reply carries the cached event id. -/
theorem stepG_fresh_idem_hit (cfg : BookingConfig) (calId : String) (s : SessionState)
    (cache : List (String × IdemEntry)) (e : ToolEvent) (a : ArgsObj)
    (remote : Except AdapterError CreateEventRes) (entry : IdemEntry) (id : String)
    (hn : e.name = .booking_create_appointment) (ha : e.arguments = .obj a)
    (hvalid : isBookingCreateAppointmentInput a = true)
    (hdry : cfg.dryRun = false)
    (hentry : mapGet (pruneIdempotencyCache e.now cache)
      (googleIdempotencyKey calId
        (some (buildIdempotencySource s.callSid s.streamSid s.conversationId))
        (strField a "startISO") (strField a "endISO")) = some entry)
    (hid : entry.eventId = some id) (hidne : id ≠ "")
    (hc : mapGet s.processedToolCalls e.callId = none)
    (hi : setHas s.inflightToolCalls e.callId = false)
    (hmiss : ∀ t r0, mapGet s.recentAppointments
        (buildAppointmentDedupeKey s.callSid s.streamSid (strField a "startISO")
          (strField a "endISO")) = some (t, r0) →
      ¬ e.now - t < appointmentDedupeWindowMs) :
    (handleToolCallG cfg calId s cache e remote).2.2 = [] ∧
      (s.openaiOpen = true →
        OutMsg.functionCallOutput e.callId
          (.createResult (confirmedCreateOutput cfg a ⟨entry.eventId, entry.htmlLink⟩ id)) ∈
          (handleToolCallG cfg calId s cache e remote).2.1) ∧
      (handleToolCallG cfg calId s cache e remote).1.2 =
        pruneIdempotencyCache e.now cache ∧
      (handleToolCallG cfg calId s cache e remote).1.1.processedToolCalls =
        mapSet s.processedToolCalls e.callId
          (.createResult (confirmedCreateOutput cfg a ⟨entry.eventId, entry.htmlLink⟩ id)) ∧
      (handleToolCallG cfg calId s cache e remote).1.1.inflightToolCalls =
        setDelete (setAdd s.inflightToolCalls e.callId) e.callId ∧
      mapGet (handleToolCallG cfg calId s cache e remote).1.1.recentAppointments
          (buildAppointmentDedupeKey s.callSid s.streamSid (strField a "startISO")
            (strField a "endISO")) =
        some (e.now, confirmedCreateOutput cfg a ⟨entry.eventId, entry.htmlLink⟩ id) := by
  have hg : googleStepOf cfg calId s cache e remote =
      ⟨.ok (some ⟨entry.eventId, entry.htmlLink⟩), pruneIdempotencyCache e.now cache,
        []⟩ := by
    unfold googleStepOf
    rw [hdry, ha]
    exact googleCreateEvent_hit calId _ _ _ e.now cache remote entry hentry
  have hresG : (adapterEventOf e
      (googleStepOf cfg calId s cache e remote).outcome).adapter.createOutcome =
      .ok (some ⟨entry.eventId, entry.htmlLink⟩) := by
    show (googleStepOf cfg calId s cache e remote).outcome = _
    rw [hg]
  have hcG : mapGet s.processedToolCalls
      (adapterEventOf e (googleStepOf cfg calId s cache e remote).outcome).callId =
      none := hc
  have hiG : setHas s.inflightToolCalls
      (adapterEventOf e (googleStepOf cfg calId s cache e remote).outcome).callId =
      false := hi
  have hnG : (adapterEventOf e (googleStepOf cfg calId s cache e remote).outcome).name =
      .booking_create_appointment := hn
  have haG : (adapterEventOf e
      (googleStepOf cfg calId s cache e remote).outcome).arguments = .obj a := ha
  have hstep := handleToolCall_create_step cfg s
    (adapterEventOf e (googleStepOf cfg calId s cache e remote).outcome) a
    hcG hiG hnG haG hvalid
  set eG : ToolEvent :=
    adapterEventOf e (googleStepOf cfg calId s cache e remote).outcome with heGdef
  set sA : SessionState :=
    { s with inflightToolCalls := setAdd s.inflightToolCalls eG.callId } with hsAdef
  set fA : List OutMsg := sendCalendarFiller sA eG.name eG.callId with hfAdef
  have hmissA : ∀ t r0, mapGet sA.recentAppointments
      (buildAppointmentDedupeKey sA.callSid sA.streamSid (strField a "startISO")
        (strField a "endISO")) = some (t, r0) →
      ¬ eG.now - t < appointmentDedupeWindowMs := hmiss
  have hfresh := handleCreateValid_fresh cfg sA eG a fA hmissA
  set sB : SessionState :=
    { sA with callSummary :=
        (captureReason
          (captureCallerName { sA.callSummary with appointmentRequested := true }
            (strField a "name"))
          (strField a "reason")) } with hsBdef
  set keyA : String := buildAppointmentDedupeKey sA.callSid sA.streamSid
    (strField a "startISO") (strField a "endISO") with hkeyAdef
  have hidr : (⟨entry.eventId, entry.htmlLink⟩ : CreateEventRes).eventId = some id := hid
  obtain ⟨hops, hrec, hproc, hinf, hcorr, hlast, hbook, hsid, hss, hopenA, hmem⟩ :=
    handleCreateFresh_confirmed cfg sB eG a fA keyA ⟨entry.eventId, entry.htmlLink⟩ id
      hdry hresG hidr hidne
  have hopsT : (handleToolCall cfg s eG).2.2 =
      [RemoteOp.createEvent (strField a "startISO") (strField a "endISO")] := by
    rw [hstep, hfresh]
    exact hops
  have hGrun := handleToolCallG_create cfg calId s cache e remote
    (strField a "startISO") (strField a "endISO") hopsT
  refine ⟨?_, ?_, ?_, ?_, ?_, ?_⟩
  · rw [hGrun, hg]
  · intro ho
    rw [hGrun]
    show OutMsg.functionCallOutput eG.callId
      (.createResult (confirmedCreateOutput cfg a ⟨entry.eventId, entry.htmlLink⟩ id)) ∈
      (handleToolCall cfg s eG).2.1
    rw [hstep, hfresh]
    exact hmem ho
  · rw [hGrun, hg]
  · rw [hGrun]
    show (handleToolCall cfg s eG).1.processedToolCalls = _
    rw [hstep, hfresh]
    exact hproc
  · rw [hGrun]
    show (handleToolCall cfg s eG).1.inflightToolCalls = _
    rw [hstep, hfresh]
    exact hinf
  · rw [hGrun]
    show mapGet (handleToolCall cfg s eG).1.recentAppointments keyA = _
    rw [hstep, hfresh]
    exact hrec

/-- Once the idempotency entry is gone, a fresh create performs a new remote
insert whatever the insert oracle then does. -/
theorem stepG_fresh_inserts (cfg : BookingConfig) (calId : String) (s : SessionState)
    (cache : List (String × IdemEntry)) (e : ToolEvent) (a : ArgsObj)
    (remote : Except AdapterError CreateEventRes)
    (hn : e.name = .booking_create_appointment) (ha : e.arguments = .obj a)
    (hvalid : isBookingCreateAppointmentInput a = true)
    (hdry : cfg.dryRun = false)
    (hgmiss : mapGet (pruneIdempotencyCache e.now cache)
      (googleIdempotencyKey calId
        (some (buildIdempotencySource s.callSid s.streamSid s.conversationId))
        (strField a "startISO") (strField a "endISO")) = none)
    (hc : mapGet s.processedToolCalls e.callId = none)
    (hi : setHas s.inflightToolCalls e.callId = false)
    (hmiss : ∀ t r0, mapGet s.recentAppointments
        (buildAppointmentDedupeKey s.callSid s.streamSid (strField a "startISO")
          (strField a "endISO")) = some (t, r0) →
      ¬ e.now - t < appointmentDedupeWindowMs) :
    (handleToolCallG cfg calId s cache e remote).2.2 =
      [RemoteOp.createEvent (strField a "startISO") (strField a "endISO")] := by
  have hins : (googleStepOf cfg calId s cache e remote).inserts =
      [.createEvent (strField a "startISO") (strField a "endISO")] := by
    unfold googleStepOf
    rw [hdry, ha]
    exact googleCreateEvent_miss_inserts calId _ _ _ e.now cache remote hgmiss
  have hcG : mapGet s.processedToolCalls
      (adapterEventOf e (googleStepOf cfg calId s cache e remote).outcome).callId =
      none := hc
  have hiG : setHas s.inflightToolCalls
      (adapterEventOf e (googleStepOf cfg calId s cache e remote).outcome).callId =
      false := hi
  have hnG : (adapterEventOf e (googleStepOf cfg calId s cache e remote).outcome).name =
      .booking_create_appointment := hn
  have haG : (adapterEventOf e
      (googleStepOf cfg calId s cache e remote).outcome).arguments = .obj a := ha
  have hstep := handleToolCall_create_step cfg s
    (adapterEventOf e (googleStepOf cfg calId s cache e remote).outcome) a
    hcG hiG hnG haG hvalid
  set eG : ToolEvent :=
    adapterEventOf e (googleStepOf cfg calId s cache e remote).outcome with heGdef
  set sA : SessionState :=
    { s with inflightToolCalls := setAdd s.inflightToolCalls eG.callId } with hsAdef
  set fA : List OutMsg := sendCalendarFiller sA eG.name eG.callId with hfAdef
  have hmissA : ∀ t r0, mapGet sA.recentAppointments
      (buildAppointmentDedupeKey sA.callSid sA.streamSid (strField a "startISO")
        (strField a "endISO")) = some (t, r0) →
      ¬ eG.now - t < appointmentDedupeWindowMs := hmiss
  have hfresh := handleCreateValid_fresh cfg sA eG a fA hmissA
  have hopsT : (handleToolCall cfg s eG).2.2 =
      [RemoteOp.createEvent (strField a "startISO") (strField a "endISO")] := by
    rw [hstep, hfresh]
    exact handleCreateFresh_ops cfg _ eG a _ _ hdry
  have hGrun := handleToolCallG_create cfg calId s cache e remote
    (strField a "startISO") (strField a "endISO") hopsT
  rw [hGrun]
  exact hins

/-- C3 (amended): for one session and identical startISO/endISO, against the
bridge composed with the Google adapter's idempotency cache: a fresh confirmed
create performs exactly one actual remote insert; a second delivery under a
new identifier inside the 2-minute dedupe window performs none and replays the
same result; a third delivery after the dedupe window expired but within the
adapter's 5-minute idempotency TTL invokes the adapter yet performs no new
remote insert — its reply still carries the original event id; and a delivery
after the idempotency TTL expired performs a new remote insert. -/
theorem C3_dedupe_window (cfg : BookingConfig) (calId : String) (s : SessionState)
    (cache : List (String × IdemEntry)) (e1 e2 e3 e4 : ToolEvent) (a : ArgsObj)
    (res : CreateEventRes) (id : String)
    (remote2 remote3 remote4 : Except AdapterError CreateEventRes)
    (hn1 : e1.name = .booking_create_appointment) (ha1 : e1.arguments = .obj a)
    (hn2 : e2.name = .booking_create_appointment) (ha2 : e2.arguments = .obj a)
    (hn3 : e3.name = .booking_create_appointment) (ha3 : e3.arguments = .obj a)
    (hn4 : e4.name = .booking_create_appointment) (ha4 : e4.arguments = .obj a)
    (hvalid : isBookingCreateAppointmentInput a = true)
    (hdry : cfg.dryRun = false)
    (hid : res.eventId = some id) (hidne : id ≠ "")
    (hd12 : e2.callId ≠ e1.callId) (hd13 : e3.callId ≠ e1.callId)
    (hd14 : e4.callId ≠ e1.callId) (hd23 : e3.callId ≠ e2.callId)
    (hd24 : e4.callId ≠ e2.callId) (hd34 : e4.callId ≠ e3.callId)
    (hc1 : mapGet s.processedToolCalls e1.callId = none)
    (hc2 : mapGet s.processedToolCalls e2.callId = none)
    (hc3 : mapGet s.processedToolCalls e3.callId = none)
    (hc4 : mapGet s.processedToolCalls e4.callId = none)
    (hi1 : setHas s.inflightToolCalls e1.callId = false)
    (hi2 : setHas s.inflightToolCalls e2.callId = false)
    (hi3 : setHas s.inflightToolCalls e3.callId = false)
    (hi4 : setHas s.inflightToolCalls e4.callId = false)
    (hkey : mapGet s.recentAppointments
      (buildAppointmentDedupeKey s.callSid s.streamSid (strField a "startISO")
        (strField a "endISO")) = none)
    (hgkey : mapGet cache
      (googleIdempotencyKey calId
        (some (buildIdempotencySource s.callSid s.streamSid s.conversationId))
        (strField a "startISO") (strField a "endISO")) = none)
    (hwin2 : e2.now - e1.now < appointmentDedupeWindowMs)
    (hwin3 : ¬ e3.now - e1.now < appointmentDedupeWindowMs)
    (httl3 : e3.now - e1.now ≤ IDEMPOTENCY_TTL_MS)
    (hwin4 : ¬ e4.now - e3.now < appointmentDedupeWindowMs)
    (httl4 : ¬ e4.now - e1.now ≤ IDEMPOTENCY_TTL_MS)
    (hopen : s.openaiOpen = true) :
    let r1 := handleToolCallG cfg calId s cache e1 (.ok res)
    let r2 := handleToolCallG cfg calId r1.1.1 r1.1.2 e2 remote2
    let r3 := handleToolCallG cfg calId r2.1.1 r2.1.2 e3 remote3
    let r4 := handleToolCallG cfg calId r3.1.1 r3.1.2 e4 remote4
    r1.2.2 = [RemoteOp.createEvent (strField a "startISO") (strField a "endISO")] ∧
      OutMsg.functionCallOutput e1.callId
        (.createResult (confirmedCreateOutput cfg a res id)) ∈ r1.2.1 ∧
      r2.2.2 = [] ∧
      OutMsg.functionCallOutput e2.callId
        (.createResult (confirmedCreateOutput cfg a res id)) ∈ r2.2.1 ∧
      r3.2.2 = [] ∧
      OutMsg.functionCallOutput e3.callId
        (.createResult (confirmedCreateOutput cfg a res id)) ∈ r3.2.1 ∧
      r4.2.2 = [RemoteOp.createEvent (strField a "startISO") (strField a "endISO")] := by
  dsimp only
  have hmiss1 : ∀ t r0, mapGet s.recentAppointments
      (buildAppointmentDedupeKey s.callSid s.streamSid (strField a "startISO")
        (strField a "endISO")) = some (t, r0) →
      ¬ e1.now - t < appointmentDedupeWindowMs := by
    intro t r0 heq
    rw [hkey] at heq
    cases heq
  have hgmiss1 : mapGet (pruneIdempotencyCache e1.now cache)
      (googleIdempotencyKey calId
        (some (buildIdempotencySource s.callSid s.streamSid s.conversationId))
        (strField a "startISO") (strField a "endISO")) = none :=
    mapGet_prune_none _ _ _ hgkey
  obtain ⟨hops1, hmem1, hcache1, hproc1, hinf1, hrec1⟩ :=
    stepG_fresh_confirmed cfg calId s cache e1 a res id hn1 ha1 hvalid hdry hid hidne
      hc1 hi1 hmiss1 hgmiss1
  have hf1 := handleToolCallG_frame cfg calId s cache e1 (.ok res)
  set p1 := handleToolCallG cfg calId s cache e1 (.ok res) with hp1def
  have hopen1 : p1.1.1.openaiOpen = true := by
    rw [hf1.1]
    exact hopen
  -- step 2: dedupe-window replay
  have hc2' : mapGet p1.1.1.processedToolCalls e2.callId = none := by
    rw [hproc1, mapGet_mapSet_ne _ _ _ _ hd12]
    exact hc2
  have hi2' : setHas p1.1.1.inflightToolCalls e2.callId = false := by
    rw [hinf1, setHas_setDelete_ne _ _ _ hd12, setHas_setAdd_ne _ _ _ hd12]
    exact hi2
  have hget2 : mapGet p1.1.1.recentAppointments
      (buildAppointmentDedupeKey p1.1.1.callSid p1.1.1.streamSid (strField a "startISO")
        (strField a "endISO")) = some (e1.now, confirmedCreateOutput cfg a res id) := by
    rw [hf1.2.1, hf1.2.2.1]
    exact hrec1
  obtain ⟨hops2, hmem2, hcache2, hproc2, hinf2, hrec2⟩ :=
    stepG_dedupe_hit cfg calId p1.1.1 p1.1.2 e2 a remote2 e1.now
      (confirmedCreateOutput cfg a res id) hn2 ha2 hvalid hc2' hi2' hget2 hwin2
  have hf2 := handleToolCallG_frame cfg calId p1.1.1 p1.1.2 e2 remote2
  set p2 := handleToolCallG cfg calId p1.1.1 p1.1.2 e2 remote2 with hp2def
  have hopen2 : p2.1.1.openaiOpen = true := by
    rw [hf2.1]
    exact hopen1
  have hsid2 : p2.1.1.callSid = s.callSid := by rw [hf2.2.1, hf1.2.1]
  have hss2 : p2.1.1.streamSid = s.streamSid := by rw [hf2.2.2.1, hf1.2.2.1]
  have hcid2 : p2.1.1.conversationId = s.conversationId := by
    rw [hf2.2.2.2, hf1.2.2.2]
  -- step 3: bridge window expired, adapter idempotency entry still live
  have hc3' : mapGet p2.1.1.processedToolCalls e3.callId = none := by
    rw [hproc2, mapGet_mapSet_ne _ _ _ _ hd23, hproc1, mapGet_mapSet_ne _ _ _ _ hd13]
    exact hc3
  have hi3' : setHas p2.1.1.inflightToolCalls e3.callId = false := by
    rw [hinf2, setHas_setDelete_ne _ _ _ hd23, setHas_setAdd_ne _ _ _ hd23,
      hinf1, setHas_setDelete_ne _ _ _ hd13, setHas_setAdd_ne _ _ _ hd13]
    exact hi3
  have hcaches : p2.1.2 = pruneIdempotencyCache e1.now cache ++
      [(googleIdempotencyKey calId
          (some (buildIdempotencySource s.callSid s.streamSid s.conversationId))
          (strField a "startISO") (strField a "endISO"),
        ⟨.done, res.eventId, res.htmlLink, e1.now⟩)] := by
    rw [hcache2, hcache1]
  have hentry3 : mapGet (pruneIdempotencyCache e3.now p2.1.2)
      (googleIdempotencyKey calId
        (some (buildIdempotencySource p2.1.1.callSid p2.1.1.streamSid
          p2.1.1.conversationId))
        (strField a "startISO") (strField a "endISO")) =
      some ⟨.done, res.eventId, res.htmlLink, e1.now⟩ := by
    rw [hsid2, hss2, hcid2, hcaches, prune_append, prune_single_kept e3.now _ _ httl3]
    rw [mapGet_append_of_none _ _ _
      (mapGet_prune_none _ _ _ (mapGet_prune_none _ _ _ hgkey))]
    simp [mapGet]
  have hget3 : mapGet p2.1.1.recentAppointments
      (buildAppointmentDedupeKey p2.1.1.callSid p2.1.1.streamSid (strField a "startISO")
        (strField a "endISO")) = some (e1.now, confirmedCreateOutput cfg a res id) := by
    rw [hrec2, hsid2, hss2]
    exact hrec1
  have hmiss3 : ∀ t r0, mapGet p2.1.1.recentAppointments
      (buildAppointmentDedupeKey p2.1.1.callSid p2.1.1.streamSid (strField a "startISO")
        (strField a "endISO")) = some (t, r0) →
      ¬ e3.now - t < appointmentDedupeWindowMs := by
    intro t r0 heq
    rw [hget3] at heq
    obtain ⟨ht, hr0⟩ := Prod.mk.injEq .. ▸ (Option.some.injEq .. ▸ heq)
    rw [← ht]
    exact hwin3
  obtain ⟨hops3, hmem3, hcache3, hproc3, hinf3, hrec3⟩ :=
    stepG_fresh_idem_hit cfg calId p2.1.1 p2.1.2 e3 a remote3
      ⟨.done, res.eventId, res.htmlLink, e1.now⟩ id hn3 ha3 hvalid hdry hentry3 hid
      hidne hc3' hi3' hmiss3
  have hf3 := handleToolCallG_frame cfg calId p2.1.1 p2.1.2 e3 remote3
  set p3 := handleToolCallG cfg calId p2.1.1 p2.1.2 e3 remote3 with hp3def
  have hsid3 : p3.1.1.callSid = s.callSid := by rw [hf3.2.1, hsid2]
  have hss3 : p3.1.1.streamSid = s.streamSid := by rw [hf3.2.2.1, hss2]
  have hcid3 : p3.1.1.conversationId = s.conversationId := by rw [hf3.2.2.2, hcid2]
  -- step 4: idempotency entry expired, a genuinely new remote insert
  have hc4' : mapGet p3.1.1.processedToolCalls e4.callId = none := by
    rw [hproc3, mapGet_mapSet_ne _ _ _ _ hd34, hproc2, mapGet_mapSet_ne _ _ _ _ hd24,
      hproc1, mapGet_mapSet_ne _ _ _ _ hd14]
    exact hc4
  have hi4' : setHas p3.1.1.inflightToolCalls e4.callId = false := by
    rw [hinf3, setHas_setDelete_ne _ _ _ hd34, setHas_setAdd_ne _ _ _ hd34,
      hinf2, setHas_setDelete_ne _ _ _ hd24, setHas_setAdd_ne _ _ _ hd24,
      hinf1, setHas_setDelete_ne _ _ _ hd14, setHas_setAdd_ne _ _ _ hd14]
    exact hi4
  have hmiss4 : ∀ t r0, mapGet p3.1.1.recentAppointments
      (buildAppointmentDedupeKey p3.1.1.callSid p3.1.1.streamSid (strField a "startISO")
        (strField a "endISO")) = some (t, r0) →
      ¬ e4.now - t < appointmentDedupeWindowMs := by
    intro t r0 heq
    rw [hf3.2.1, hf3.2.2.1, hrec3] at heq
    obtain ⟨ht, hr0⟩ := Prod.mk.injEq .. ▸ (Option.some.injEq .. ▸ heq)
    rw [← ht]
    exact hwin4
  have hgmiss4 : mapGet (pruneIdempotencyCache e4.now p3.1.2)
      (googleIdempotencyKey calId
        (some (buildIdempotencySource p3.1.1.callSid p3.1.1.streamSid
          p3.1.1.conversationId))
        (strField a "startISO") (strField a "endISO")) = none := by
    rw [hsid3, hss3, hcid3, hcache3, hcaches, prune_append,
      prune_single_kept e3.now _ _ httl3, prune_append,
      prune_single_dropped e4.now _ _ httl4, List.append_nil]
    exact mapGet_prune_none _ _ _
      (mapGet_prune_none _ _ _ (mapGet_prune_none _ _ _ hgkey))
  have hops4 := stepG_fresh_inserts cfg calId p3.1.1 p3.1.2 e4 a remote4 hn4 ha4 hvalid
    hdry hgmiss4 hc4' hi4' hmiss4
  exact ⟨hops1, hmem1 hopen, hops2, hmem2 hopen1, hops3, hmem3 hopen2, hops4⟩

/-- C3 witness: four concrete identical create deliveries — 10 s apart, at the
2-minute window boundary, and past the 5-minute idempotency TTL — against a
fresh session and an empty gateway cache. -/
theorem C3_dedupe_window_witness :
    (let r1 := handleToolCallG cfgLive "cal-1" initSessionState [] eCreate1
        (.ok ⟨some "evt-1", none⟩)
     let r2 := handleToolCallG cfgLive "cal-1" r1.1.1 r1.1.2 eCreate2
        (.ok ⟨some "evt-2", none⟩)
     let r3 := handleToolCallG cfgLive "cal-1" r2.1.1 r2.1.2 eCreate3
        (.ok ⟨some "evt-2", none⟩)
     let r4 := handleToolCallG cfgLive "cal-1" r3.1.1 r3.1.2 eCreate4
        (.ok ⟨some "evt-2", none⟩)
     r1.2.2 = [RemoteOp.createEvent (strField createArgsW "startISO")
         (strField createArgsW "endISO")] ∧
       OutMsg.functionCallOutput eCreate1.callId
         (.createResult (confirmedCreateOutput cfgLive createArgsW ⟨some "evt-1", none⟩
           "evt-1")) ∈ r1.2.1 ∧
       r2.2.2 = [] ∧
       OutMsg.functionCallOutput eCreate2.callId
         (.createResult (confirmedCreateOutput cfgLive createArgsW ⟨some "evt-1", none⟩
           "evt-1")) ∈ r2.2.1 ∧
       r3.2.2 = [] ∧
       OutMsg.functionCallOutput eCreate3.callId
         (.createResult (confirmedCreateOutput cfgLive createArgsW ⟨some "evt-1", none⟩
           "evt-1")) ∈ r3.2.1 ∧
       r4.2.2 = [RemoteOp.createEvent (strField createArgsW "startISO")
         (strField createArgsW "endISO")]) :=
  C3_dedupe_window cfgLive "cal-1" initSessionState [] eCreate1 eCreate2 eCreate3
    eCreate4 createArgsW ⟨some "evt-1", none⟩ "evt-1" (.ok ⟨some "evt-2", none⟩)
    (.ok ⟨some "evt-2", none⟩) (.ok ⟨some "evt-2", none⟩)
    rfl rfl rfl rfl rfl rfl rfl rfl (by decide) rfl rfl (by decide)
    (by decide) (by decide) (by decide) (by decide) (by decide) (by decide)
    rfl rfl rfl rfl rfl rfl rfl rfl rfl rfl
    (by decide) (by decide) (by decide) (by decide) (by decide) rfl

/-- Counterexample to C3 as frozen: a third identical create, issued after the
2-minute dedupe window expired, performs no new remote create — the Google
adapter serves it from its still-live 5-minute idempotency-cache entry, and
the reply still carries the original event id even though the remote-insert
oracle of that call would have returned a different one. -/
theorem C3_after_window_served_from_idempotency_cache :
    (let r1 := handleToolCallG cfgLive "cal-1" initSessionState [] eCreate1
        (.ok ⟨some "evt-1", none⟩)
     let r2 := handleToolCallG cfgLive "cal-1" r1.1.1 r1.1.2 eCreate2
        (.ok ⟨some "evt-2", none⟩)
     let r3 := handleToolCallG cfgLive "cal-1" r2.1.1 r2.1.2 eCreate3
        (.ok ⟨some "evt-2", none⟩)
     (¬ eCreate3.now - eCreate1.now < appointmentDedupeWindowMs) ∧
       r1.2.2 = [RemoteOp.createEvent "2025-03-04T17:00:00.000Z"
         "2025-03-04T17:30:00.000Z"] ∧
       r3.2.2 = [] ∧
       OutMsg.functionCallOutput "tc-c3" (ToolOutput.createResult
         ⟨false, true, some "evt-1", none, some "Caller requested: teeth cleaning.",
           "2025-03-04T17:00:00.000Z", "2025-03-04T17:30:00.000Z",
           "America/Phoenix"⟩) ∈ r3.2.1) := by
  decide

/-! ### Booked-flag provenance: C1 -/

theorem handleAvailability_booked (cfg : BookingConfig) (s : SessionState) (e : ToolEvent)
    (f : List OutMsg) :
    (handleAvailability cfg s e f).1.callSummary.appointmentBooked =
      s.callSummary.appointmentBooked := by
  unfold handleAvailability sendToolOutputCached
  split <;> rfl

theorem handleFind_booked (cfg : BookingConfig) (s : SessionState) (e : ToolEvent)
    (a : ArgsObj) (f : List OutMsg) :
    (handleFind cfg s e a f).1.callSummary.appointmentBooked =
      s.callSummary.appointmentBooked := by
  unfold handleFind sendToolOutputCached
  split
  · rfl
  · dsimp only
    split
    · split <;> simp
    · simp

theorem handleCancel_booked_source (cfg : BookingConfig) (s : SessionState) (e : ToolEvent)
    (a : ArgsObj) (f : List OutMsg)
    (h : (handleCancel cfg s e a f).1.callSummary.appointmentBooked = some true) :
    s.callSummary.appointmentBooked = some true := by
  unfold handleCancel sendToolOutputCached at h
  split at h
  · exact h
  · dsimp only at h
    split at h
    · split at h
      · simpa using h
      · simp at h
    · simpa using h

theorem handleUpdate_booked_source (cfg : BookingConfig) (s : SessionState) (e : ToolEvent)
    (a : ArgsObj) (f : List OutMsg)
    (h : (handleUpdate cfg s e a f).1.callSummary.appointmentBooked = some true) :
    s.callSummary.appointmentBooked = some true ∨
      ∃ r, e.adapter.updateOutcome = .ok r := by
  unfold handleUpdate sendToolOutputCached at h
  split at h
  · exact Or.inl h
  · dsimp only at h
    split at h
    · rename_i result ops heq
      exact Or.inr (updateAppointmentTool_ok_source _ _ _ _ _ _ _ _ heq)
    · dsimp only at h
      exact Or.inl (by simpa using h)

theorem handleCreateFresh_booked_source (cfg : BookingConfig) (s1 : SessionState)
    (e : ToolEvent) (a : ArgsObj) (f : List OutMsg) (k : String)
    (h : (handleCreateFresh cfg s1 e a f k).1.callSummary.appointmentBooked = some true) :
    s1.callSummary.appointmentBooked = some true ∨
      ∃ res, e.adapter.createOutcome = .ok res ∧
        ∃ id, res.bind (fun r => r.eventId) = some id ∧ id ≠ "" := by
  unfold handleCreateFresh sendToolOutputCached at h
  dsimp only at h
  split at h
  · rename_i result ops heq
    dsimp only at h
    right
    exact createAppointment_ok_source cfg _ _ result ops heq (by simpa using h)
  · dsimp only at h
    exact Or.inl h

theorem handleCreateValid_booked_source (cfg : BookingConfig) (s : SessionState)
    (e : ToolEvent) (a : ArgsObj) (f : List OutMsg)
    (h : (handleCreateValid cfg s e a f).1.callSummary.appointmentBooked = some true) :
    s.callSummary.appointmentBooked = some true ∨
      ∃ res, e.adapter.createOutcome = .ok res ∧
        ∃ id, res.bind (fun r => r.eventId) = some id ∧ id ≠ "" := by
  unfold handleCreateValid sendToolOutputCached at h
  dsimp only at h
  split at h
  · split at h
    · dsimp only at h
      exact Or.inl (by simpa using h)
    · rcases handleCreateFresh_booked_source _ _ _ _ _ _ h with h1 | h2
      · exact Or.inl (by simpa using h1)
      · exact Or.inr h2
  · rcases handleCreateFresh_booked_source _ _ _ _ _ _ h with h1 | h2
    · exact Or.inl (by simpa using h1)
    · exact Or.inr h2

/-- Any step that sets the summary's booked flag to true is either preserving
an existing true, a create whose adapter outcome carries a non-empty event id,
or an update whose adapter call succeeded. -/
theorem handleToolCall_booked_source (cfg : BookingConfig) (s : SessionState) (e : ToolEvent)
    (h : (handleToolCall cfg s e).1.callSummary.appointmentBooked = some true) :
    s.callSummary.appointmentBooked = some true ∨
      (e.name = .booking_create_appointment ∧
        ∃ res, e.adapter.createOutcome = .ok res ∧
          ∃ id, res.bind (fun r => r.eventId) = some id ∧ id ≠ "") ∨
      (e.name = .update_event ∧ ∃ r, e.adapter.updateOutcome = .ok r) := by
  unfold handleToolCall at h
  split at h
  · exact Or.inl h
  · split at h
    · exact Or.inl h
    · dsimp only at h
      split at h
      · -- parse failure
        unfold sendToolOutputCached at h
        exact Or.inl h
      · split at h
        · rw [handleAvailability_booked] at h
          exact Or.inl h
        · rename_i hname
          split at h
          · unfold sendToolOutputCached at h
            exact Or.inl h
          · rcases handleCreateValid_booked_source _ _ _ _ _ h with h1 | h2
            · exact Or.inl h1
            · exact Or.inr (Or.inl ⟨hname, h2⟩)
        · rw [handleFind_booked] at h
          exact Or.inl h
        · rename_i hname
          rcases handleUpdate_booked_source _ _ _ _ _ h with h1 | h2
          · exact Or.inl h1
          · exact Or.inr (Or.inr ⟨hname, h2⟩)
        · have hcancel := handleCancel_booked_source _ _ _ _ _ h
          exact Or.inl hcancel
        · unfold sendToolOutputCached at h
          exact Or.inl h

/-- The assistant-text finalization never touches the call summary. -/
theorem finalizeAssistantText_callSummary (s : SessionState) :
    (finalizeAssistantText s).1.callSummary = s.callSummary := by
  unfold finalizeAssistantText sendBookingCorrection
  repeat' first | dsimp only | split

/-- C1 (amended): the summary's booked flag becomes true only when a create
whose adapter outcome carries a non-empty event id completes, or when an
update_event succeeds; a non-dry-run create returning no usable event id
surfaces the typed booking error and leaves the flag unchanged; and the
assistant's spoken text never changes the call summary. -/
theorem C1_booked_only_from_calendar :
    (∀ (cfg : BookingConfig) (s : SessionState) (e : ToolEvent),
        (handleToolCall cfg s e).1.callSummary.appointmentBooked = some true →
        s.callSummary.appointmentBooked = some true ∨
          (e.name = .booking_create_appointment ∧
            ∃ res, e.adapter.createOutcome = .ok res ∧
              ∃ id, res.bind (fun r => r.eventId) = some id ∧ id ≠ "") ∨
          (e.name = .update_event ∧ ∃ r, e.adapter.updateOutcome = .ok r)) ∧
    (∀ (cfg : BookingConfig) (s : SessionState) (e : ToolEvent) (a : ArgsObj)
        (res : Option CreateEventRes),
        mapGet s.processedToolCalls e.callId = none →
        setHas s.inflightToolCalls e.callId = false →
        e.name = .booking_create_appointment →
        e.arguments = .obj a →
        isBookingCreateAppointmentInput a = true →
        cfg.dryRun = false →
        e.adapter.createOutcome = .ok res →
        (res.bind (fun r => r.eventId) = none ∨
          res.bind (fun r => r.eventId) = some "") →
        mapGet s.recentAppointments
          (buildAppointmentDedupeKey s.callSid s.streamSid (strField a "startISO")
            (strField a "endISO")) = none →
        (handleToolCall cfg s e).1.callSummary.appointmentBooked =
            s.callSummary.appointmentBooked ∧
          (s.openaiOpen = true →
            OutMsg.functionCallOutput e.callId
              (.errorResult "booking_error" "Unable to confirm appointment booking.") ∈
              (handleToolCall cfg s e).2.1)) ∧
    (∀ s : SessionState, (finalizeAssistantText s).1.callSummary = s.callSummary) := by
  refine ⟨handleToolCall_booked_source, ?_, finalizeAssistantText_callSummary⟩
  intro cfg s e a res hc hi hname hargs hvalid hdry hres hid hkey
  have hstep := handleToolCall_create_step cfg s e a hc hi hname hargs hvalid
  set sA : SessionState :=
    { s with inflightToolCalls := setAdd s.inflightToolCalls e.callId } with hsAdef
  set fA : List OutMsg := sendCalendarFiller sA e.name e.callId with hfAdef
  have hmiss : ∀ (t : Nat) (r0 : BookingCreateAppointmentOutput),
      mapGet sA.recentAppointments
        (buildAppointmentDedupeKey sA.callSid sA.streamSid (strField a "startISO")
          (strField a "endISO")) = some (t, r0) →
      ¬ e.now - t < appointmentDedupeWindowMs := by
    intro t r0 heq
    have heq' : mapGet s.recentAppointments
        (buildAppointmentDedupeKey s.callSid s.streamSid (strField a "startISO")
          (strField a "endISO")) = some (t, r0) := heq
    rw [hkey] at heq'
    cases heq'
  have hfresh := handleCreateValid_fresh cfg sA e a fA hmiss
  set sB : SessionState :=
    { sA with callSummary :=
        (captureReason
          (captureCallerName { sA.callSummary with appointmentRequested := true }
            (strField a "name"))
          (strField a "reason")) } with hsBdef
  set keyA : String := buildAppointmentDedupeKey sA.callSid sA.streamSid
    (strField a "startISO") (strField a "endISO") with hkeyAdef
  obtain ⟨hbook, hcorr, hlast, hmem⟩ :=
    handleCreateFresh_no_id cfg sB e a fA keyA res hdry hres hid
  rw [hstep, hfresh]
  constructor
  · rw [hbook, hsBdef]
    simp [hsAdef]
  · intro ho
    exact hmem ho

/-- C1 counterexample: a successful `update_event` sets the summary's booked
flag to true although the only remote operation performed is an update — no
calendar create returned an event identifier. -/
theorem C1_update_sets_booked_without_create :
    (handleToolCall cfgLive initSessionState eUpdate1).1.callSummary.appointmentBooked =
        some true ∧
      (handleToolCall cfgLive initSessionState eUpdate1).2.2 =
        [RemoteOp.updateEvent "evt-1"] :=
  ⟨rfl, rfl⟩

/-! ### Booking-claim correction latch: C4 -/

theorem finalize_correction_once (s : SessionState)
    (hmode : s.mode = .receptionist)
    (hlen : (stringTrim s.assistantBuffer).length > 0)
    (hclaim : bookingClaimRegexTest (stringTrim s.assistantBuffer) = true)
    (hconf : (s.lastBookingCreateResult.map (fun r => r.created)).getD false = false)
    (hlatch : s.bookingCorrectionSent = false)
    (hopen : s.openaiOpen = true) :
    (∃ instr, (finalizeAssistantText s).2 = [OutMsg.responseInstructions instr]) ∧
      (finalizeAssistantText s).1.bookingCorrectionSent = true := by
  unfold finalizeAssistantText sendBookingCorrection sendBookingFailureResponse
  rw [hmode]
  dsimp only
  rw [if_pos hlen, if_pos (by simp [hclaim, hconf]), if_neg (by simp [hlatch]),
    if_pos hopen]
  exact ⟨⟨_, rfl⟩, rfl⟩

theorem finalize_latched (s : SessionState)
    (hlatch : s.bookingCorrectionSent = true) :
    (finalizeAssistantText s).2 = [] ∧
      (finalizeAssistantText s).1.bookingCorrectionSent = true := by
  unfold finalizeAssistantText sendBookingCorrection
  repeat' first | dsimp only | split
  all_goals simp_all

theorem handleToolCall_create_resets_latch (cfg : BookingConfig) (s : SessionState)
    (e : ToolEvent) (a : ArgsObj) (r : CreateEventRes) (id : String)
    (hc : mapGet s.processedToolCalls e.callId = none)
    (hi : setHas s.inflightToolCalls e.callId = false)
    (hname : e.name = .booking_create_appointment)
    (hargs : e.arguments = .obj a)
    (hvalid : isBookingCreateAppointmentInput a = true)
    (hdry : cfg.dryRun = false)
    (hres : e.adapter.createOutcome = .ok (some r))
    (hid : r.eventId = some id) (hidne : id ≠ "")
    (hkey : mapGet s.recentAppointments
      (buildAppointmentDedupeKey s.callSid s.streamSid (strField a "startISO")
        (strField a "endISO")) = none) :
    (handleToolCall cfg s e).1.bookingCorrectionSent = false := by
  have hstep := handleToolCall_create_step cfg s e a hc hi hname hargs hvalid
  set sA : SessionState :=
    { s with inflightToolCalls := setAdd s.inflightToolCalls e.callId } with hsAdef
  set fA : List OutMsg := sendCalendarFiller sA e.name e.callId with hfAdef
  have hmiss : ∀ (t : Nat) (r0 : BookingCreateAppointmentOutput),
      mapGet sA.recentAppointments
        (buildAppointmentDedupeKey sA.callSid sA.streamSid (strField a "startISO")
          (strField a "endISO")) = some (t, r0) →
      ¬ e.now - t < appointmentDedupeWindowMs := by
    intro t r0 heq
    have heq' : mapGet s.recentAppointments
        (buildAppointmentDedupeKey s.callSid s.streamSid (strField a "startISO")
          (strField a "endISO")) = some (t, r0) := heq
    rw [hkey] at heq'
    cases heq'
  have hfresh := handleCreateValid_fresh cfg sA e a fA hmiss
  set sB : SessionState :=
    { sA with callSummary :=
        (captureReason
          (captureCallerName { sA.callSummary with appointmentRequested := true }
            (strField a "name"))
          (strField a "reason")) } with hsBdef
  set keyA : String := buildAppointmentDedupeKey sA.callSid sA.streamSid
    (strField a "startISO") (strField a "endISO") with hkeyAdef
  obtain ⟨hops, hrec, hproc, hinf, hcorr, hlast, hbook, hsid, hss, hopen', hmem⟩ :=
    handleCreateFresh_confirmed cfg sB e a fA keyA r id hdry hres hid hidne
  rw [hstep, hfresh]
  exact hcorr

theorem handleToolCall_dedupe_resets_latch (cfg : BookingConfig) (s : SessionState)
    (e : ToolEvent) (a : ArgsObj) (t : Nat) (r0 : BookingCreateAppointmentOutput)
    (hc : mapGet s.processedToolCalls e.callId = none)
    (hi : setHas s.inflightToolCalls e.callId = false)
    (hname : e.name = .booking_create_appointment)
    (hargs : e.arguments = .obj a)
    (hvalid : isBookingCreateAppointmentInput a = true)
    (hget : mapGet s.recentAppointments
      (buildAppointmentDedupeKey s.callSid s.streamSid (strField a "startISO")
        (strField a "endISO")) = some (t, r0))
    (hwin : e.now - t < appointmentDedupeWindowMs) :
    (handleToolCall cfg s e).1.bookingCorrectionSent = false := by
  have hstep := handleToolCall_create_step cfg s e a hc hi hname hargs hvalid
  set sA : SessionState :=
    { s with inflightToolCalls := setAdd s.inflightToolCalls e.callId } with hsAdef
  set fA : List OutMsg := sendCalendarFiller sA e.name e.callId with hfAdef
  have hget' : mapGet sA.recentAppointments
      (buildAppointmentDedupeKey sA.callSid sA.streamSid (strField a "startISO")
        (strField a "endISO")) = some (t, r0) := hget
  obtain ⟨hops, hrec, hproc, hinf, hcorr, hlast, hsid, hss, hopen', hmem⟩ :=
    handleCreateValid_dedupeHit cfg sA e a fA t r0 hget' hwin
  rw [hstep]
  exact hcorr

theorem handleToolCall_create_error_keeps_latch (cfg : BookingConfig) (s : SessionState)
    (e : ToolEvent) (a : ArgsObj) (msg : String)
    (hc : mapGet s.processedToolCalls e.callId = none)
    (hi : setHas s.inflightToolCalls e.callId = false)
    (hname : e.name = .booking_create_appointment)
    (hargs : e.arguments = .obj a)
    (hvalid : isBookingCreateAppointmentInput a = true)
    (hdry : cfg.dryRun = false)
    (hres : e.adapter.createOutcome = .error (.thrown msg))
    (hcfgerr : isBookingConfigError (.thrown msg) = false)
    (hkey : mapGet s.recentAppointments
      (buildAppointmentDedupeKey s.callSid s.streamSid (strField a "startISO")
        (strField a "endISO")) = none) :
    (handleToolCall cfg s e).1.bookingCorrectionSent = s.bookingCorrectionSent ∧
      (handleToolCall cfg s e).1.lastBookingCreateResult = s.lastBookingCreateResult := by
  have hstep := handleToolCall_create_step cfg s e a hc hi hname hargs hvalid
  set sA : SessionState :=
    { s with inflightToolCalls := setAdd s.inflightToolCalls e.callId } with hsAdef
  set fA : List OutMsg := sendCalendarFiller sA e.name e.callId with hfAdef
  have hmiss : ∀ (t : Nat) (r0 : BookingCreateAppointmentOutput),
      mapGet sA.recentAppointments
        (buildAppointmentDedupeKey sA.callSid sA.streamSid (strField a "startISO")
          (strField a "endISO")) = some (t, r0) →
      ¬ e.now - t < appointmentDedupeWindowMs := by
    intro t r0 heq
    have heq' : mapGet s.recentAppointments
        (buildAppointmentDedupeKey s.callSid s.streamSid (strField a "startISO")
          (strField a "endISO")) = some (t, r0) := heq
    rw [hkey] at heq'
    cases heq'
  have hfresh := handleCreateValid_fresh cfg sA e a fA hmiss
  set sB : SessionState :=
    { sA with callSummary :=
        (captureReason
          (captureCallerName { sA.callSummary with appointmentRequested := true }
            (strField a "name"))
          (strField a "reason")) } with hsBdef
  set keyA : String := buildAppointmentDedupeKey sA.callSid sA.streamSid
    (strField a "startISO") (strField a "endISO") with hkeyAdef
  obtain ⟨hcorr, hlast, hbook, hmem⟩ :=
    handleCreateFresh_thrown cfg sB e a fA keyA msg hdry hres hcfgerr
  rw [hstep, hfresh]
  exact ⟨hcorr, hlast⟩

/-- C4 (amended): the correction latch behavior. With booking-claim language
in a finished receptionist turn and no confirmed create, an unlatched session
issues exactly one corrective instruction and sets the latch; while latched no
further correction is issued; the latch is reset by a booking attempt that
records a result (a confirmed fresh create or a dedupe-window replay); an
attempt that fails with a typed booking error leaves the latch and the last
recorded result unchanged. -/
theorem C4_correction_latch :
    (∀ s : SessionState, s.mode = .receptionist →
        (stringTrim s.assistantBuffer).length > 0 →
        bookingClaimRegexTest (stringTrim s.assistantBuffer) = true →
        (s.lastBookingCreateResult.map (fun r => r.created)).getD false = false →
        s.bookingCorrectionSent = false →
        s.openaiOpen = true →
        (∃ instr, (finalizeAssistantText s).2 = [OutMsg.responseInstructions instr]) ∧
          (finalizeAssistantText s).1.bookingCorrectionSent = true) ∧
    (∀ s : SessionState, s.bookingCorrectionSent = true →
        (finalizeAssistantText s).2 = [] ∧
          (finalizeAssistantText s).1.bookingCorrectionSent = true) ∧
    (∀ (cfg : BookingConfig) (s : SessionState) (e : ToolEvent) (a : ArgsObj)
        (r : CreateEventRes) (id : String),
        mapGet s.processedToolCalls e.callId = none →
        setHas s.inflightToolCalls e.callId = false →
        e.name = .booking_create_appointment →
        e.arguments = .obj a →
        isBookingCreateAppointmentInput a = true →
        cfg.dryRun = false →
        e.adapter.createOutcome = .ok (some r) →
        r.eventId = some id → id ≠ "" →
        mapGet s.recentAppointments
          (buildAppointmentDedupeKey s.callSid s.streamSid (strField a "startISO")
            (strField a "endISO")) = none →
        (handleToolCall cfg s e).1.bookingCorrectionSent = false) ∧
    (∀ (cfg : BookingConfig) (s : SessionState) (e : ToolEvent) (a : ArgsObj)
        (t : Nat) (r0 : BookingCreateAppointmentOutput),
        mapGet s.processedToolCalls e.callId = none →
        setHas s.inflightToolCalls e.callId = false →
        e.name = .booking_create_appointment →
        e.arguments = .obj a →
        isBookingCreateAppointmentInput a = true →
        mapGet s.recentAppointments
          (buildAppointmentDedupeKey s.callSid s.streamSid (strField a "startISO")
            (strField a "endISO")) = some (t, r0) →
        e.now - t < appointmentDedupeWindowMs →
        (handleToolCall cfg s e).1.bookingCorrectionSent = false) ∧
    (∀ (cfg : BookingConfig) (s : SessionState) (e : ToolEvent) (a : ArgsObj)
        (msg : String),
        mapGet s.processedToolCalls e.callId = none →
        setHas s.inflightToolCalls e.callId = false →
        e.name = .booking_create_appointment →
        e.arguments = .obj a →
        isBookingCreateAppointmentInput a = true →
        cfg.dryRun = false →
        e.adapter.createOutcome = .error (.thrown msg) →
        isBookingConfigError (.thrown msg) = false →
        mapGet s.recentAppointments
          (buildAppointmentDedupeKey s.callSid s.streamSid (strField a "startISO")
            (strField a "endISO")) = none →
        (handleToolCall cfg s e).1.bookingCorrectionSent = s.bookingCorrectionSent ∧
          (handleToolCall cfg s e).1.lastBookingCreateResult =
            s.lastBookingCreateResult) :=
  ⟨fun s h1 h2 h3 h4 h5 h6 => finalize_correction_once s h1 h2 h3 h4 h5 h6,
    fun s h => finalize_latched s h,
    fun cfg s e a r id h1 h2 h3 h4 h5 h6 h7 h8 h9 h10 =>
      handleToolCall_create_resets_latch cfg s e a r id h1 h2 h3 h4 h5 h6 h7 h8 h9 h10,
    fun cfg s e a t r0 h1 h2 h3 h4 h5 h6 h7 =>
      handleToolCall_dedupe_resets_latch cfg s e a t r0 h1 h2 h3 h4 h5 h6 h7,
    fun cfg s e a msg h1 h2 h3 h4 h5 h6 h7 h8 h9 =>
      handleToolCall_create_error_keeps_latch cfg s e a msg h1 h2 h3 h4 h5 h6 h7 h8 h9⟩

/-- C4 counterexample: after a correction was issued, a *new* booking attempt
(the second failing create) begins, yet a recurring claim in the next finished
turn draws no correction — the latch is not reset when an attempt merely
begins (it is only reset when an attempt records a result). The first
finalize emits a correction; the one after the new attempt emits nothing. -/
theorem C4_latch_not_reset_on_new_attempt :
    (finalizeAssistantText (noteAssistantText
        (handleToolCall cfgLive initSessionState eCreateFail1).1 "You are booked.")).2 ≠ [] ∧
      (finalizeAssistantText (noteAssistantText
        (handleToolCall cfgLive
          (finalizeAssistantText (noteAssistantText
            (handleToolCall cfgLive initSessionState eCreateFail1).1 "You are booked.")).1
          eCreateFail2).1 "You are booked.")).2 = [] := by
  decide

end BookedSolid
